import Mathlib

/-!
Verification of the vmcli reconciliation and health-diagnosis core.

This file is a shallow embedding, in Lean 4, of the pure decision logic of
`src/main.rs`: the EC2 status-check classifier, the security-group port-22
classifier, the EC2 Instance Connect probe (skip precedence and error
handling), the health-verdict synthesis, the tag-based resource locator,
the ensure/prune reconciliation operations (modelled over an explicit
provider-state record, with provider calls that in the source are
subprocess invocations of the AWS CLI turned into state transitions), and
the cloud-identifier sanitizer shared by the GCE and droplet backends.
-/

namespace VmCli

/-- ASCII uppercase test, mirroring Rust's char::is_ascii_uppercase. -/
def isAsciiUpper (c : Char) : Bool :=
  65 ≤ c.toNat && c.toNat ≤ 90

/-- ASCII lowercase-letter test. -/
def isAsciiLowerAlpha (c : Char) : Bool :=
  97 ≤ c.toNat && c.toNat ≤ 122

/-- ASCII digit test, mirroring Rust's char::is_ascii_digit. -/
def isAsciiDigit (c : Char) : Bool :=
  48 ≤ c.toNat && c.toNat ≤ 57

/-- ASCII letter test, mirroring Rust's char::is_ascii_alphabetic. -/
def isAsciiAlphabetic (c : Char) : Bool :=
  isAsciiUpper c || isAsciiLowerAlpha c

/-- ASCII alphanumeric test, mirroring Rust's char::is_ascii_alphanumeric. -/
def isAsciiAlnum (c : Char) : Bool :=
  isAsciiAlphabetic c || isAsciiDigit c

/-- Per-character ASCII lowercasing, mirroring Rust's to_ascii_lowercase. -/
def asciiLowerChar (c : Char) : Char :=
  if isAsciiUpper c then Char.ofNat (c.toNat + 32) else c

/-- Whole-string ASCII lowercasing, mirroring Rust's str::to_ascii_lowercase. -/
def asciiLowerStr (s : String) : String :=
  String.mk (s.data.map asciiLowerChar)

/-- List-of-chars prefix test, used to model Rust's str::contains. -/
def charsIsPrefix : List Char → List Char → Bool
  | [], _ => true
  | _ :: _, [] => false
  | a :: as, b :: bs => a == b && charsIsPrefix as bs

/-- Substring containment on char lists, modelling Rust's str::contains. -/
def charsContains : List Char → List Char → Bool
  | [], needle => charsIsPrefix needle []
  | a :: rest, needle => charsIsPrefix needle (a :: rest) || charsContains rest needle

/-- Substring containment on strings, modelling Rust's str::contains. -/
def strContains (hay needle : String) : Bool :=
  charsContains hay.data needle.data

/-- Whitespace test used to model Rust's str::trim. -/
def isRustWhitespace (c : Char) : Bool :=
  c == ' ' || c == '\t' || c == '\n' || c == '\r'

/-- Models Rust's str::trim: strip leading and trailing whitespace. -/
def strTrim (s : String) : String :=
  String.mk ((s.data.dropWhile isRustWhitespace).reverse.dropWhile
    isRustWhitespace).reverse

/-- Mirrors `normalize_optional`: trim, and turn empty-after-trim into None. -/
def normalize_optional (value : Option String) : Option String :=
  value.bind fun item =>
    let trimmed := strTrim item
    if trimmed = "" then none else some trimmed

/-- Mirrors the serde struct `Ec2StatusSummary` (a nullable Status field). -/
structure Ec2StatusSummary where
  status : Option String
deriving DecidableEq, Repr

/-- Mirrors the serde struct `Ec2InstanceStatus`: one entry of the
describe-instance-status response. -/
structure Ec2InstanceStatusEntry where
  instance_id : String
  system_status : Option Ec2StatusSummary
  instance_status : Option Ec2StatusSummary
deriving DecidableEq, Repr

/-- Mirrors the struct `Ec2StatusChecks`. -/
structure Ec2StatusChecks where
  system_status : String
  instance_status : String
  checks_pass : Option Bool
deriving DecidableEq, Repr

/-- The sub-status normalization in `describe_ec2_status_checks`:
`entry.system_status.and_then(|s| normalize_optional(s.status)).unwrap_or("unknown")`. -/
def sub_status_string (summary : Option Ec2StatusSummary) : String :=
  ((summary.bind fun s => normalize_optional s.status)).getD "unknown"

/-- The `match (system_status.as_str(), instance_status.as_str())` arm of
`describe_ec2_status_checks`, in source order. -/
def checks_pass_of (system_status instance_status : String) : Option Bool :=
  if system_status = "ok" ∧ instance_status = "ok" then some true
  else if system_status = "unknown" ∨ instance_status = "unknown" then none
  else some false

/-- The body of `describe_ec2_status_checks` after the provider call: the
status entry for the instance (if any) plus the instance state determine
the derived tri-state. -/
def ec2_status_checks_of_entry (entry : Option Ec2InstanceStatusEntry)
    (instance_state : String) : Ec2StatusChecks :=
  match entry with
  | some e =>
    let system_status := sub_status_string e.system_status
    let instance_status := sub_status_string e.instance_status
    { system_status := system_status
      instance_status := instance_status
      checks_pass := checks_pass_of system_status instance_status }
  | none =>
    if instance_state = "stopped" ∨ instance_state = "stopping" ∨
        instance_state = "shutting-down" then
      { system_status := "not-applicable"
        instance_status := "not-applicable"
        checks_pass := none }
    else
      { system_status := "unknown"
        instance_status := "unknown"
        checks_pass := none }

/-- The `find` over the describe-instance-status response list. -/
def find_status_entry (entries : List Ec2InstanceStatusEntry)
    (instance_id : String) : Option Ec2InstanceStatusEntry :=
  entries.find? fun e => e.instance_id == instance_id

/-- Mirrors `describe_ec2_status_checks` with the provider response made an
explicit argument. -/
def describe_ec2_status_checks (entries : List Ec2InstanceStatusEntry)
    (instance_id instance_state : String) : Ec2StatusChecks :=
  ec2_status_checks_of_entry (find_status_entry entries instance_id) instance_state

/-- Mirrors the enum `ProbeOutcome`. -/
inductive ProbeOutcome
  | Success
  | Failed
  | Skipped
deriving DecidableEq, Repr

/-- Mirrors the enum `SgPort22Status`. -/
inductive SgPort22Status
  | OpenWorld
  | Restricted
  | Closed
  | Unknown
deriving DecidableEq, Repr

/-- Mirrors the enum `HealthLevel`. -/
inductive HealthLevel
  | Ok
  | Degraded
  | Unreachable
  | Unknown
deriving DecidableEq, Repr

/-- Mirrors the struct `EicProbeResult`. -/
structure EicProbeResult where
  os_user : String
  public_ip_present : Bool
  instance_running : Bool
  az_present : Bool
  sg_port22 : SgPort22Status
  send_ssh_public_key : ProbeOutcome
  send_ssh_public_key_reason : Option String
deriving DecidableEq, Repr

/-- Mirrors the struct `HealthSummary`. -/
structure HealthSummary where
  level : HealthLevel
  ssh_local_problem_likely : Option Bool
  notes : String
deriving DecidableEq, Repr

/-- Mirrors `summarize_health`: the verdict-synthesis rules, in source
order with early returns. -/
def summarize_health (instance_state : String) (ec2_checks_pass : Option Bool)
    (eic_probe : EicProbeResult) : HealthSummary :=
  if instance_state ≠ "running" then
    { level := .Unreachable
      ssh_local_problem_likely := some false
      notes := "instance-not-running" }
  else if ec2_checks_pass = some false then
    { level := .Degraded
      ssh_local_problem_likely := some false
      notes := "ec2-status-checks-not-passing" }
  else
    let remote_probe_success := eic_probe.send_ssh_public_key = ProbeOutcome.Success
    if ec2_checks_pass = some true ∧ remote_probe_success then
      { level := .Ok
        ssh_local_problem_likely := some true
        notes := "aws-control-plane-probe-succeeded" }
    else if eic_probe.sg_port22 = SgPort22Status.Closed then
      { level := .Degraded
        ssh_local_problem_likely := some false
        notes := "security-group-port-22-closed" }
    else if ec2_checks_pass = none then
      { level := if remote_probe_success then .Degraded else .Unknown
        ssh_local_problem_likely := none
        notes :=
          if remote_probe_success then "ec2-status-checks-unknown"
          else "ec2-status-checks-unknown-and-no-remote-probe-confirmation" }
    else
      { level := .Degraded
        ssh_local_problem_likely := some false
        notes := "instance-running-but-remote-probe-not-confirmed" }

/-- Modelled from the spec: the six verdict rules of section 4.4,
evaluated top-to-bottom with first match winning, written from the spec's
words (for the refinement theorem of claim C1). -/
def health_verdict_spec (instance_state : String) (checks : Option Bool)
    (probe : EicProbeResult) : HealthSummary :=
  if instance_state ≠ "running" then
    ⟨.Unreachable, some false, "instance-not-running"⟩
  else if checks = some false then
    ⟨.Degraded, some false, "ec2-status-checks-not-passing"⟩
  else if checks = some true ∧ probe.send_ssh_public_key = ProbeOutcome.Success then
    ⟨.Ok, some true, "aws-control-plane-probe-succeeded"⟩
  else if probe.sg_port22 = SgPort22Status.Closed then
    ⟨.Degraded, some false, "security-group-port-22-closed"⟩
  else if checks = none then
    if probe.send_ssh_public_key = ProbeOutcome.Success then
      ⟨.Degraded, none, "ec2-status-checks-unknown"⟩
    else
      ⟨.Unknown, none, "ec2-status-checks-unknown-and-no-remote-probe-confirmation"⟩
  else
    ⟨.Degraded, some false, "instance-running-but-remote-probe-not-confirmed"⟩

/-- Mirrors `eic_send_key_skip_reason`: the probe-skip precedence chain. -/
def eic_send_key_skip_reason (instance_running public_ip_present az_present
    public_key_exists : Bool) : Option String :=
  if !instance_running then some "instance-not-running"
  else if !public_ip_present then some "no-public-ip"
  else if !az_present then some "availability-zone-missing"
  else if !public_key_exists then some "ssh-public-key-not-found"
  else none

/-- Mirrors `is_access_denied_error`. -/
def is_access_denied_error (message : String) : Bool :=
  let lower := asciiLowerStr message
  strContains lower "accessdenied" || strContains lower "access denied" ||
    strContains lower "unauthorizedoperation" || strContains lower "not authorized"

/-- The provider's response to the ec2-instance-connect send-ssh-public-key
call: either a failed invocation carrying `aws_error_text`, or a parsed
response carrying the optional Success field. -/
inductive EicResponse
  | failure (message : String)
  | success (success_field : Option Bool)
deriving DecidableEq, Repr

/-- Mirrors `run_eic_probe` with the instance-derived booleans, the local
key-file existence and the provider's response as explicit arguments. -/
def run_eic_probe (instance_running public_ip_present az_present
    public_key_exists : Bool) (sg_port22 : SgPort22Status) (os_user : String)
    (resp : EicResponse) : Except String EicProbeResult :=
  let base : EicProbeResult :=
    { os_user := os_user
      public_ip_present := public_ip_present
      instance_running := instance_running
      az_present := az_present
      sg_port22 := sg_port22
      send_ssh_public_key := .Skipped
      send_ssh_public_key_reason := none }
  match eic_send_key_skip_reason instance_running public_ip_present az_present
      public_key_exists with
  | some reason => .ok { base with send_ssh_public_key_reason := some reason }
  | none =>
    match resp with
    | .failure message =>
      if is_access_denied_error message then
        .error ("ec2-instance-connect send-ssh-public-key failed: " ++ message)
      else
        .ok { base with
                send_ssh_public_key := .Failed
                send_ssh_public_key_reason := some message }
    | .success success_field =>
      if success_field.getD false then
        .ok { base with send_ssh_public_key := .Success }
      else
        .ok { base with
                send_ssh_public_key := .Failed
                send_ssh_public_key_reason := some "success=false" }

/-- Mirrors the serde struct `IpRange` (a nullable CidrIp). -/
structure IpRange where
  cidr_ip : Option String
deriving DecidableEq, Repr

/-- Mirrors the serde struct `Ipv6Range` (a nullable CidrIpv6). -/
structure Ipv6Range where
  cidr_ipv6 : Option String
deriving DecidableEq, Repr

/-- Mirrors the serde struct `UserIdGroupPair`. -/
structure UserIdGroupPair where
  group_id : Option String
deriving DecidableEq, Repr

/-- Mirrors the serde struct `PrefixListId`. -/
structure PrefixListId where
  prefix_list_id : Option String
deriving DecidableEq, Repr

/-- Mirrors the serde struct `IpPermission`. -/
structure IpPermission where
  ip_protocol : Option String
  from_port : Option Int
  to_port : Option Int
  ip_ranges : Option (List IpRange)
  ipv6_ranges : Option (List Ipv6Range)
  user_id_group_pairs : Option (List UserIdGroupPair)
  prefix_list_ids : Option (List PrefixListId)
deriving DecidableEq, Repr

/-- Mirrors the serde struct `SecurityGroup`. -/
structure SecurityGroup where
  group_id : String
  ip_permissions : Option (List IpPermission)
deriving DecidableEq, Repr

/-- Mirrors `permission_allows_tcp_port`. -/
def permission_allows_tcp_port (permission : IpPermission) (port : Int) : Bool :=
  let protocol := asciiLowerStr (permission.ip_protocol.getD "")
  if protocol = "-1" then true
  else if protocol ≠ "tcp" then false
  else
    let fromPort := permission.from_port.getD port
    let toPort := permission.to_port.getD port
    fromPort ≤ port && port ≤ toPort

/-- Mirrors `permission_has_world_source`. -/
def permission_has_world_source (permission : IpPermission) : Bool :=
  let has_world_v4 :=
    (permission.ip_ranges.map fun ranges =>
      ranges.any fun range =>
        (range.cidr_ip.map fun cidr => cidr == "0.0.0.0/0").getD false).getD false
  let has_world_v6 :=
    (permission.ipv6_ranges.map fun ranges =>
      ranges.any fun range =>
        (range.cidr_ipv6.map fun cidr => cidr == "::/0").getD false).getD false
  has_world_v4 || has_world_v6

/-- Mirrors `permission_has_any_source`. -/
def permission_has_any_source (permission : IpPermission) : Bool :=
  (permission.ip_ranges.map fun ranges =>
    ranges.any fun range => range.cidr_ip.isSome).getD false ||
  (permission.ipv6_ranges.map fun ranges =>
    ranges.any fun range => range.cidr_ipv6.isSome).getD false ||
  (permission.user_id_group_pairs.map fun pairs =>
    pairs.any fun pair => pair.group_id.isSome).getD false ||
  (permission.prefix_list_ids.map fun ids =>
    ids.any fun i => i.prefix_list_id.isSome).getD false

/-- A security group's permission list with the source's None-permissions
skip (`let Some(permissions) ... else continue`) made explicit. -/
def sg_permissions (sg : SecurityGroup) : List IpPermission :=
  sg.ip_permissions.getD []

/-- The loop body of `classify_sg_port_22` over the (flattened) permission
lists of all groups, carrying the `has_restricted` flag and returning
OpenWorld eagerly as the source does. -/
def classify_go : List IpPermission → Bool → SgPort22Status
  | [], has_restricted => if has_restricted then .Restricted else .Closed
  | permission :: rest, has_restricted =>
    if !permission_allows_tcp_port permission 22 then
      classify_go rest has_restricted
    else if permission_has_world_source permission then .OpenWorld
    else classify_go rest (has_restricted || permission_has_any_source permission)

/-- Mirrors `classify_sg_port_22`. -/
def classify_sg_port_22 (security_groups : List SecurityGroup) : SgPort22Status :=
  if security_groups.isEmpty then .Unknown
  else classify_go (security_groups.flatMap sg_permissions) false

/-- A permission that matches port 22 and has a world (0.0.0.0/0 or ::/0)
source. -/
def matching_world (permission : IpPermission) : Bool :=
  permission_allows_tcp_port permission 22 && permission_has_world_source permission

/-- A permission that matches port 22 and has some concrete source. -/
def matching_any (permission : IpPermission) : Bool :=
  permission_allows_tcp_port permission 22 && permission_has_any_source permission

/-- Group-list rearrangement: each group's rule list may be permuted, and
the groups themselves may be permuted. -/
def SgRearrangement (a b : List SecurityGroup) : Prop :=
  ∃ mid, List.Forall₂
      (fun x y => x.group_id = y.group_id ∧ (sg_permissions x).Perm (sg_permissions y))
      a mid ∧ mid.Perm b

/-- Mirrors the serde struct `Tag`. -/
structure Tag where
  key : String
  value : String
deriving DecidableEq, Repr

/-- Mirrors `tag_value`. -/
def tag_value (tags : Option (List Tag)) (key : String) : Option String :=
  tags.bind fun tags =>
    (tags.find? fun tag => tag.key == key).map fun tag => tag.value

/-- Mirrors `resource_name`: the Name tag is `"{cluster}-{suffix}"`. -/
def resource_name (cluster suffix : String) : String :=
  cluster ++ "-" ++ suffix

/-- The provider-side semantics of the two `tag_filters` (tag:Name and
tag:Cluster) used by every find operation. -/
def matches_tag_filters (tags : Option (List Tag)) (name cluster : String) : Bool :=
  tag_value tags "Name" == some name && tag_value tags "Cluster" == some cluster

/-- The tags attached by `tag_spec` on every create call. -/
def created_tags (name cluster : String) : Option (List Tag) :=
  some [⟨"Name", name⟩, ⟨"Cluster", cluster⟩]

/-- The `NON_TERMINATED_STATES` instance-state filter. -/
def non_terminated_states : List String :=
  ["pending", "running", "stopping", "stopped", "shutting-down"]

/-- A VPC as the reconciler sees it. -/
structure Vpc where
  vpc_id : String
  tags : Option (List Tag)
deriving DecidableEq, Repr

/-- A subnet as the reconciler sees it, with the map-public-ip-on-launch
attribute that `ensure_subnet` sets. -/
structure SubnetRes where
  subnet_id : String
  vpc_id : String
  tags : Option (List Tag)
  map_public_ip_on_launch : Bool
deriving DecidableEq, Repr

/-- Mirrors the serde struct `InternetGatewayAttachment`. -/
structure IgwAttachment where
  vpc_id : Option String
deriving DecidableEq, Repr

/-- Mirrors the serde struct `InternetGateway`. -/
structure InternetGateway where
  internet_gateway_id : String
  tags : Option (List Tag)
  attachments : Option (List IgwAttachment)
deriving DecidableEq, Repr

/-- Mirrors the serde struct `RouteTableAssociation` (the `main` flag is
consulted only by `disassociate_route_table`). -/
structure RtAssoc where
  association_id : Option String
  subnet_id : Option String
  main : Option Bool
deriving DecidableEq, Repr

/-- A route table as the reconciler sees it: routes are
(destination CIDR, gateway id) pairs. -/
structure RouteTableRes where
  route_table_id : String
  tags : Option (List Tag)
  routes : List (String × String)
  associations : List RtAssoc
deriving DecidableEq, Repr

/-- A security group as the reconciler sees it, with the set of ports whose
ingress has been authorized. -/
structure SgRes where
  group_id : String
  tags : Option (List Tag)
  ingress_ports : List Int
deriving DecidableEq, Repr

/-- An instance as the locator and prune engine see it. -/
structure InstanceRes where
  instance_id : String
  state : String
  vpc_id : Option String
  public_ip : Option String
  availability_zone : Option String
  tags : Option (List Tag)
deriving DecidableEq, Repr

/-- The provider state the reconciler converges: every resource list plus a
fresh-identifier counter for provider-assigned ids. -/
structure AwsState where
  vpcs : List Vpc
  subnets : List SubnetRes
  igws : List InternetGateway
  route_tables : List RouteTableRes
  security_groups : List SgRes
  instances : List InstanceRes
  key_pairs : List String
  next_id : Nat
deriving DecidableEq, Repr

/-- Provider-assigned identifiers, one per create call. -/
def fresh_id (s : AwsState) (stem : String) : String :=
  stem ++ "-" ++ toString s.next_id

/-- An exit status plus stderr of one provider CLI invocation, as inspected
by the create-then-replace-on-conflict idiom. -/
structure CmdOutput where
  success : Bool
  stderr : String
deriving DecidableEq, Repr

/-- Mirrors `find_vpc`: zero matches is None, one match is its id, more is
the ambiguity error. -/
def find_vpc (vpcs : List Vpc) (cluster : String) : Except String (Option String) :=
  let name := resource_name cluster "vpc"
  match vpcs.filter fun vpc => matches_tag_filters vpc.tags name cluster with
  | [] => .ok none
  | [vpc] => .ok (some vpc.vpc_id)
  | _ => .error ("multiple VPCs found for cluster " ++ cluster)

/-- Mirrors `find_subnet`. -/
def find_subnet (subnets : List SubnetRes) (cluster : String) :
    Except String (Option String) :=
  let name := resource_name cluster "subnet"
  match subnets.filter fun subnet => matches_tag_filters subnet.tags name cluster with
  | [] => .ok none
  | [subnet] => .ok (some subnet.subnet_id)
  | _ => .error ("multiple subnets found for cluster " ++ cluster)

/-- Mirrors `find_internet_gateway` (returns the whole record, attachments
included). -/
def find_internet_gateway (igws : List InternetGateway) (cluster : String) :
    Except String (Option InternetGateway) :=
  let name := resource_name cluster "igw"
  match igws.filter fun igw => matches_tag_filters igw.tags name cluster with
  | [] => .ok none
  | [igw] => .ok (some igw)
  | _ => .error ("multiple internet gateways found for cluster " ++ cluster)

/-- Mirrors `find_route_table`. -/
def find_route_table (tables : List RouteTableRes) (cluster : String) :
    Except String (Option RouteTableRes) :=
  let name := resource_name cluster "rt"
  match tables.filter fun table => matches_tag_filters table.tags name cluster with
  | [] => .ok none
  | [table] => .ok (some table)
  | _ => .error ("multiple route tables found for cluster " ++ cluster)

/-- Mirrors `find_security_group`. -/
def find_security_group (groups : List SgRes) (cluster : String) :
    Except String (Option String) :=
  let name := resource_name cluster "sg"
  match groups.filter fun sg => matches_tag_filters sg.tags name cluster with
  | [] => .ok none
  | [sg] => .ok (some sg.group_id)
  | _ => .error ("multiple security groups found for cluster " ++ cluster)

/-- The describe-instances filter used by `find_instance_by_name`: tag:Name
plus the non-terminated state filter, with no Cluster filter. -/
def instances_by_name (instances : List InstanceRes) (name : String) :
    List InstanceRes :=
  instances.filter fun i =>
    tag_value i.tags "Name" == some name && non_terminated_states.contains i.state

/-- Mirrors `find_instance_by_name`: zero matches and two-or-more matches
both fail. -/
def find_instance_by_name (instances : List InstanceRes) (name : String) :
    Except String InstanceRes :=
  match instances_by_name instances name with
  | [] => .error ("no instance found with Name tag " ++ name)
  | [i] => .ok i
  | ms =>
    .error ("multiple instances found with Name tag " ++ name ++ ": " ++
      String.intercalate ", " (ms.map fun i => i.instance_id))

/-- Mirrors `describe_instances_by_vpc`: the non-terminated instances inside
one VPC. -/
def describe_instances_by_vpc (instances : List InstanceRes) (vpc_id : String) :
    List InstanceRes :=
  instances.filter fun i =>
    i.vpc_id == some vpc_id && non_terminated_states.contains i.state

/-- Mirrors `ensure_vpc`: find-or-create with Name/Cluster tags. -/
def ensure_vpc (s : AwsState) (cluster : String) :
    Except String (String × AwsState) :=
  match find_vpc s.vpcs cluster with
  | .error e => .error e
  | .ok (some vpc_id) => .ok (vpc_id, s)
  | .ok none =>
    let name := resource_name cluster "vpc"
    let vpc_id := fresh_id s "vpc"
    let vpc : Vpc := { vpc_id := vpc_id, tags := created_tags name cluster }
    .ok (vpc_id, { s with vpcs := s.vpcs ++ [vpc], next_id := s.next_id + 1 })

/-- Mirrors `ensure_subnet`: find-or-create, then unconditionally set the
map-public-ip-on-launch attribute. -/
def ensure_subnet (s : AwsState) (cluster vpc_id : String) :
    Except String (String × AwsState) :=
  match find_subnet s.subnets cluster with
  | .error e => .error e
  | .ok found =>
    let name := resource_name cluster "subnet"
    let (subnet_id, s₁) :=
      match found with
      | some existing => (existing, s)
      | none =>
        let subnet_id := fresh_id s "subnet"
        let subnet : SubnetRes :=
          { subnet_id := subnet_id
            vpc_id := vpc_id
            tags := created_tags name cluster
            map_public_ip_on_launch := false }
        (subnet_id, { s with subnets := s.subnets ++ [subnet]
                             next_id := s.next_id + 1 })
    let s₂ := { s₁ with subnets := s₁.subnets.map fun sub =>
                  if sub.subnet_id = subnet_id then
                    { sub with map_public_ip_on_launch := true }
                  else sub }
    .ok (subnet_id, s₂)

/-- The attachment test in `ensure_internet_gateway`. -/
def igw_attached_to (igw : InternetGateway) (vpc_id : String) : Bool :=
  (igw.attachments.map fun attachments =>
    attachments.any fun attachment =>
      (attachment.vpc_id.map fun id => id == vpc_id).getD false).getD false

/-- Mirrors the attach-internet-gateway provider call. -/
def attach_internet_gateway (s : AwsState) (igw_id vpc_id : String) : AwsState :=
  { s with igws := s.igws.map fun igw =>
      if igw.internet_gateway_id = igw_id then
        let attachment : IgwAttachment := { vpc_id := some vpc_id }
        { igw with attachments := some (igw.attachments.getD [] ++ [attachment]) }
      else igw }

/-- Mirrors `ensure_internet_gateway`: find-or-create, then attach only if
not already attached to this VPC. -/
def ensure_internet_gateway (s : AwsState) (cluster vpc_id : String) :
    Except String (String × AwsState) :=
  match find_internet_gateway s.igws cluster with
  | .error e => .error e
  | .ok found =>
    let name := resource_name cluster "igw"
    let (igw, s₁) :=
      match found with
      | some existing => (existing, s)
      | none =>
        let igw : InternetGateway :=
          { internet_gateway_id := fresh_id s "igw"
            tags := created_tags name cluster
            attachments := none }
        (igw, { s with igws := s.igws ++ [igw], next_id := s.next_id + 1 })
    let igw_id := igw.internet_gateway_id
    if igw_attached_to igw vpc_id then .ok (igw_id, s₁)
    else .ok (igw_id, attach_internet_gateway s₁ igw_id vpc_id)

/-- Mirrors the create-route provider call: fails with RouteAlreadyExists
when the table already has a route for the destination. -/
def create_route (s : AwsState) (route_table_id dest gateway_id : String) :
    CmdOutput × AwsState :=
  match s.route_tables.find? fun t => t.route_table_id == route_table_id with
  | none => ({ success := false, stderr := "InvalidRouteTableID.NotFound" }, s)
  | some table =>
    if table.routes.any fun r => r.1 == dest then
      ({ success := false, stderr := "An error occurred (RouteAlreadyExists)" }, s)
    else
      ({ success := true, stderr := "" },
       { s with route_tables := s.route_tables.map fun t =>
           if t.route_table_id = route_table_id then
             { t with routes := t.routes ++ [(dest, gateway_id)] }
           else t })

/-- Mirrors the replace-route provider call: fails when no route for the
destination exists. -/
def replace_route (s : AwsState) (route_table_id dest gateway_id : String) :
    CmdOutput × AwsState :=
  match s.route_tables.find? fun t => t.route_table_id == route_table_id with
  | none => ({ success := false, stderr := "InvalidRouteTableID.NotFound" }, s)
  | some table =>
    if table.routes.any fun r => r.1 == dest then
      ({ success := true, stderr := "" },
       { s with route_tables := s.route_tables.map fun t =>
           if t.route_table_id = route_table_id then
             { t with routes := t.routes.map fun r =>
                 if r.1 = dest then (dest, gateway_id) else r }
           else t })
    else ({ success := false, stderr := "InvalidRoute.NotFound" }, s)

/-- Mirrors the control flow of `ensure_default_route` with the provider
responses to the create and (fallback) replace calls given as arguments. -/
def ensure_default_route_outcome (createOut replaceOut : CmdOutput) :
    Except String Unit :=
  if createOut.success then .ok ()
  else if strContains createOut.stderr "RouteAlreadyExists" ||
      strContains createOut.stderr "InvalidRoute.Duplicate" then
    if replaceOut.success then .ok ()
    else .error ("failed to replace route: " ++ strTrim replaceOut.stderr)
  else .error ("failed to create route: " ++ strTrim createOut.stderr)

/-- Mirrors `ensure_default_route` over the provider state: attempt the
create of the 0.0.0.0/0 route, fall back to replace on the already-exists
signal, and fail fatally otherwise. -/
def ensure_default_route (s : AwsState) (route_table_id igw_id : String) :
    Except String AwsState :=
  let (createOut, s₁) := create_route s route_table_id "0.0.0.0/0" igw_id
  if createOut.success then .ok s₁
  else if strContains createOut.stderr "RouteAlreadyExists" ||
      strContains createOut.stderr "InvalidRoute.Duplicate" then
    let (replaceOut, s₂) := replace_route s₁ route_table_id "0.0.0.0/0" igw_id
    if replaceOut.success then .ok s₂
    else .error ("failed to replace route: " ++ strTrim replaceOut.stderr)
  else .error ("failed to create route: " ++ strTrim createOut.stderr)

/-- The decision taken by the association loop of
`ensure_route_table_association` over the tables already associated with the
subnet: the target table is already associated, or some association (with an
id) must be replaced, or a fresh association must be made. -/
inductive AssocDecision
  | already
  | replaceAssoc (association_id : String)
  | associate
deriving DecidableEq, Repr

/-- The loop of `ensure_route_table_association` over the describe result. -/
def assoc_decision : List RouteTableRes → String → String → AssocDecision
  | [], _, _ => .associate
  | table :: rest, route_table_id, subnet_id =>
    if table.route_table_id = route_table_id then .already
    else
      match (table.associations.filter fun a => a.subnet_id == some subnet_id).findSome?
          (fun a => a.association_id) with
      | some association_id => .replaceAssoc association_id
      | none => assoc_decision rest route_table_id subnet_id

/-- Mirrors the replace-route-table-association provider call: the
association moves to the target table. -/
def replace_route_table_association (s : AwsState)
    (association_id route_table_id subnet_id : String) : AwsState :=
  { s with route_tables := s.route_tables.map fun t =>
      let cleaned := t.associations.filter fun a =>
        !(a.association_id == some association_id)
      if t.route_table_id = route_table_id then
        { t with associations :=
            cleaned ++ [{ association_id := some association_id
                          subnet_id := some subnet_id
                          main := some false }] }
      else { t with associations := cleaned } }

/-- Mirrors the associate-route-table provider call: fails with the
already-associated signal when the subnet is associated anywhere. -/
def associate_route_table (s : AwsState) (route_table_id subnet_id : String) :
    CmdOutput × AwsState :=
  if s.route_tables.any fun t =>
      t.associations.any fun a => a.subnet_id == some subnet_id then
    ({ success := false, stderr := "An error occurred (Resource.AlreadyAssociated)" }, s)
  else
    let association_id := fresh_id s "rtbassoc"
    ({ success := true, stderr := "" },
     { s with
        route_tables := s.route_tables.map fun t =>
          if t.route_table_id = route_table_id then
            { t with associations :=
                t.associations ++ [{ association_id := some association_id
                                     subnet_id := some subnet_id
                                     main := some false }] }
          else t
        next_id := s.next_id + 1 })

/-- Mirrors `ensure_route_table_association`: search the tables associated
with the subnet; no-op if the target table is among them, replace an
association found elsewhere, associate afresh otherwise (treating the
already-associated signal as success). -/
def ensure_route_table_association (s : AwsState)
    (route_table_id subnet_id : String) : Except String AwsState :=
  let tables := s.route_tables.filter fun t =>
    t.associations.any fun a => a.subnet_id == some subnet_id
  match assoc_decision tables route_table_id subnet_id with
  | .already => .ok s
  | .replaceAssoc association_id =>
    .ok (replace_route_table_association s association_id route_table_id subnet_id)
  | .associate =>
    let (out, s₁) := associate_route_table s route_table_id subnet_id
    if out.success then .ok s₁
    else if strContains out.stderr "Resource.AlreadyAssociated" then .ok s₁
    else .error ("failed to associate route table: " ++ strTrim out.stderr)

/-- Mirrors `ensure_route_table`: find-or-create, then converge the default
route and the subnet association. -/
def ensure_route_table (s : AwsState) (cluster vpc_id subnet_id igw_id : String) :
    Except String (String × AwsState) :=
  match find_route_table s.route_tables cluster with
  | .error e => .error e
  | .ok found =>
    let name := resource_name cluster "rt"
    let (route_table_id, s₁) :=
      match found with
      | some existing => (existing.route_table_id, s)
      | none =>
        let route_table_id := fresh_id s "rtb"
        let table : RouteTableRes :=
          { route_table_id := route_table_id
            tags := created_tags name cluster
            routes := []
            associations := [] }
        (route_table_id, { s with route_tables := s.route_tables ++ [table]
                                  next_id := s.next_id + 1 })
    match ensure_default_route s₁ route_table_id igw_id with
    | .error e => .error e
    | .ok s₂ =>
      match ensure_route_table_association s₂ route_table_id subnet_id with
      | .error e => .error e
      | .ok s₃ => .ok (route_table_id, s₃)

/-- Mirrors `authorize_sg_ingress` with the provider's duplicate-permission
signal absorbed: the port is appended when absent and left alone otherwise. -/
def authorize_sg_ingress (s : AwsState) (sg_id : String) (port : Int) : AwsState :=
  { s with security_groups := s.security_groups.map fun g =>
      if g.group_id = sg_id then
        { g with ingress_ports :=
            if g.ingress_ports.contains port then g.ingress_ports
            else g.ingress_ports ++ [port] }
      else g }

/-- The fixed ingress port list of `ensure_security_group`. -/
def sg_ingress_ports : List Int :=
  [22, 80, 443, 9090, 9091, 9092]

/-- Mirrors `ensure_security_group`: find-or-create, then authorize ingress
for each fixed port. -/
def ensure_security_group (s : AwsState) (cluster vpc_id : String) :
    Except String (String × AwsState) :=
  match find_security_group s.security_groups cluster with
  | .error e => .error e
  | .ok found =>
    let name := resource_name cluster "sg"
    let (sg_id, s₁) :=
      match found with
      | some existing => (existing, s)
      | none =>
        let sg_id := fresh_id s "sg"
        let sg : SgRes :=
          { group_id := sg_id
            tags := created_tags name cluster
            ingress_ports := [] }
        (sg_id, { s with security_groups := s.security_groups ++ [sg]
                         next_id := s.next_id + 1 })
    .ok (sg_id, sg_ingress_ports.foldl (fun acc port =>
          authorize_sg_ingress acc sg_id port) s₁)

/-- Mirrors the state effect of `disassociate_route_table`: every non-main
association with an id is disassociated (not-found tolerated). -/
def disassociate_route_table (s : AwsState) (route_table_id : String) : AwsState :=
  { s with route_tables := s.route_tables.map fun t =>
      if t.route_table_id = route_table_id then
        { t with associations := t.associations.filter fun a =>
            (a.main.getD false) || a.association_id.isNone }
      else t }

/-- Mirrors the state effect of `delete_route_table` (not-found tolerated). -/
def delete_route_table (s : AwsState) (route_table_id : String) : AwsState :=
  { s with route_tables :=
      s.route_tables.filter fun t => !(t.route_table_id == route_table_id) }

/-- Mirrors the state effect of `delete_subnet` (not-found tolerated). -/
def delete_subnet (s : AwsState) (subnet_id : String) : AwsState :=
  { s with subnets := s.subnets.filter fun sub => !(sub.subnet_id == subnet_id) }

/-- Mirrors `detach_internet_gateway`: a no-op unless the gateway is
attached to this VPC. -/
def detach_internet_gateway (s : AwsState) (igw : InternetGateway)
    (vpc_id : String) : AwsState :=
  if !igw_attached_to igw vpc_id then s
  else
    { s with igws := s.igws.map fun g =>
        if g.internet_gateway_id = igw.internet_gateway_id then
          { g with attachments := some ((g.attachments.getD []).filter fun a =>
              !(a.vpc_id == some vpc_id)) }
        else g }

/-- Mirrors the state effect of `delete_internet_gateway` (not-found
tolerated). -/
def delete_internet_gateway (s : AwsState) (igw_id : String) : AwsState :=
  { s with igws :=
      s.igws.filter fun g => !(g.internet_gateway_id == igw_id) }

/-- Mirrors the state effect of `delete_security_group` (not-found
tolerated). -/
def delete_security_group (s : AwsState) (sg_id : String) : AwsState :=
  { s with security_groups :=
      s.security_groups.filter fun g => !(g.group_id == sg_id) }

/-- Mirrors the state effect of `delete_vpc` (not-found tolerated). -/
def delete_vpc (s : AwsState) (vpc_id : String) : AwsState :=
  { s with vpcs := s.vpcs.filter fun v => !(v.vpc_id == vpc_id) }

/-- Mirrors `delete_key_pair_if_exists` (not-found tolerated at both the
existence probe and the delete call). -/
def delete_key_pair_if_exists (s : AwsState) (key_name : String) : AwsState :=
  { s with key_pairs := s.key_pairs.filter fun k => !(k == key_name) }

/-- Mirrors `run_aws_prune` from the VPC lookup on: the fatal live-instances
precondition, the overall confirmation gate, reverse-order deletion, and the
separately gated keypair deletion. The returned list logs the prompts and
deletions performed, in order. -/
def run_aws_prune (s : AwsState) (cluster : String)
    (force confirm_prune confirm_key : Bool) :
    Except String Unit × AwsState × List String :=
  match find_vpc s.vpcs cluster with
  | .error e => (.error e, s, [])
  | .ok none => (.ok (), s, [])
  | .ok (some vpc_id) =>
    let live := describe_instances_by_vpc s.instances vpc_id
    if !live.isEmpty then
      (.error ("cannot prune while instances exist in vpc " ++ vpc_id ++ ": " ++
        String.intercalate ", " (live.map fun i => i.instance_id)), s, [])
    else
      let prompts := if force then [] else ["prompt-prune"]
      if !force && !confirm_prune then (.ok (), s, prompts)
      else
        match find_route_table s.route_tables cluster with
        | .error e => (.error e, s, prompts)
        | .ok rt_found =>
          let (s₁, acts₁) :=
            match rt_found with
            | some rt =>
              (delete_route_table (disassociate_route_table s rt.route_table_id)
                 rt.route_table_id,
               prompts ++ ["disassociate-route-table", "delete-route-table"])
            | none => (s, prompts)
          match find_subnet s₁.subnets cluster with
          | .error e => (.error e, s₁, acts₁)
          | .ok subnet_found =>
            let (s₂, acts₂) :=
              match subnet_found with
              | some subnet_id => (delete_subnet s₁ subnet_id, acts₁ ++ ["delete-subnet"])
              | none => (s₁, acts₁)
            match find_internet_gateway s₂.igws cluster with
            | .error e => (.error e, s₂, acts₂)
            | .ok igw_found =>
              let (s₃, acts₃) :=
                match igw_found with
                | some igw =>
                  (delete_internet_gateway (detach_internet_gateway s₂ igw vpc_id)
                     igw.internet_gateway_id,
                   acts₂ ++ ["detach-internet-gateway", "delete-internet-gateway"])
                | none => (s₂, acts₂)
              match find_security_group s₃.security_groups cluster with
              | .error e => (.error e, s₃, acts₃)
              | .ok sg_found =>
                let (s₄, acts₄) :=
                  match sg_found with
                  | some sg_id =>
                    (delete_security_group s₃ sg_id, acts₃ ++ ["delete-security-group"])
                  | none => (s₃, acts₃)
                let s₅ := delete_vpc s₄ vpc_id
                let acts₅ := acts₄ ++ ["delete-vpc"]
                let key_name := resource_name cluster "key"
                if force then
                  (.ok (), delete_key_pair_if_exists s₅ key_name,
                   acts₅ ++ ["delete-key-pair"])
                else if confirm_key then
                  (.ok (), delete_key_pair_if_exists s₅ key_name,
                   acts₅ ++ ["prompt-key", "delete-key-pair"])
                else (.ok (), s₅, acts₅ ++ ["prompt-key"])

/-- One step of the accumulation loop in `sanitize_cloud_identifier`. -/
def push_sanitized (out : List Char) (ch : Char) : List Char :=
  if isAsciiAlnum ch then out ++ [asciiLowerChar ch]
  else if out.getLast? = some '-' then out
  else out ++ ['-']

/-- The accumulation loop of `sanitize_cloud_identifier` over the input. -/
def sanitize_build : List Char → List Char → List Char
  | out, [] => out
  | out, ch :: rest => sanitize_build (push_sanitized out ch) rest

/-- Mirrors `sanitize_cloud_identifier`: accumulate lowered alphanumerics
with hyphen runs collapsed, strip leading and trailing hyphens, substitute
"cluster" for an empty result, and force a leading letter. -/
def sanitize_cloud_identifier (input : String) : String :=
  let out₀ := sanitize_build [] input.data
  let out₁ := out₀.dropWhile fun c => c = '-'
  let out₂ := (out₁.reverse.dropWhile fun c => c = '-').reverse
  let out₃ := if out₂ = [] then "cluster".data else out₂
  let out₄ :=
    if (out₃.head?.map isAsciiAlphabetic).getD false then out₃ else 'c' :: out₃
  String.mk out₄

/-- Mirrors `gce_cluster_label_value`. -/
def gce_cluster_label_value (cluster : String) : String :=
  sanitize_cloud_identifier cluster

/-- Mirrors `droplet_cluster_tag`. -/
def droplet_cluster_tag (cluster : String) : String :=
  "cluster-" ++ sanitize_cloud_identifier cluster

/-! ### Helper lemmas -/

theorem bool_eq_of_iff {a b : Bool} (h : a = true ↔ b = true) : a = b := by
  cases a <;> cases b <;> simp_all

theorem filter_map_comm {α : Type} (f : α → α) (p : α → Bool)
    (h : ∀ x, p (f x) = p x) (l : List α) :
    (l.map f).filter p = (l.filter p).map f := by
  induction l with
  | nil => rfl
  | cons a l ih =>
    simp only [List.map_cons, List.filter_cons, h a]
    cases hp : p a <;> simp [ih]

theorem classify_go_eq (l : List IpPermission) (r : Bool) :
    classify_go l r =
      if l.any matching_world then .OpenWorld
      else if r || l.any matching_any then .Restricted
      else .Closed := by
  induction l generalizing r with
  | nil => cases r <;> simp [classify_go]
  | cons permission rest ih =>
    by_cases hA : permission_allows_tcp_port permission 22 = true
    · by_cases hW : permission_has_world_source permission = true
      · simp [classify_go, hA, hW, matching_world]
      · have hW' : permission_has_world_source permission = false :=
          Bool.eq_false_iff.mpr hW
        simp [classify_go, hA, hW', matching_world, matching_any, ih,
          Bool.or_assoc, Bool.or_comm, Bool.or_left_comm]
    · have hA' : permission_allows_tcp_port permission 22 = false :=
        Bool.eq_false_iff.mpr hA
      simp [classify_go, hA', matching_world, matching_any, ih]

theorem classify_sg_port_22_eq (sgs : List SecurityGroup) :
    classify_sg_port_22 sgs =
      if sgs.isEmpty then .Unknown
      else if (sgs.flatMap sg_permissions).any matching_world then .OpenWorld
      else if (sgs.flatMap sg_permissions).any matching_any then .Restricted
      else .Closed := by
  unfold classify_sg_port_22
  by_cases h : sgs.isEmpty <;> simp [h, classify_go_eq]

theorem flatMap_any_iff (l : List SecurityGroup) (q : IpPermission → Bool) :
    (l.flatMap sg_permissions).any q = true ↔
      ∃ sg ∈ l, ∃ permission ∈ sg_permissions sg, q permission = true := by
  simp only [List.any_eq_true, List.mem_flatMap]
  constructor
  · rintro ⟨x, ⟨sg, hsg, hx⟩, hq⟩
    exact ⟨sg, hsg, x, hx, hq⟩
  · rintro ⟨sg, hsg, x, hx, hq⟩
    exact ⟨x, ⟨sg, hsg, hx⟩, hq⟩

theorem sg_rearrangement_length {a b : List SecurityGroup}
    (h : SgRearrangement a b) : a.length = b.length := by
  obtain ⟨mid, hf, hp⟩ := h
  exact hf.length_eq.trans hp.length_eq

theorem forall₂_perm_exists_iff {a mid : List SecurityGroup}
    (q : IpPermission → Bool)
    (hf : List.Forall₂
      (fun x y => x.group_id = y.group_id ∧ (sg_permissions x).Perm (sg_permissions y))
      a mid) :
    (∃ sg ∈ a, ∃ permission ∈ sg_permissions sg, q permission = true) ↔
      (∃ sg ∈ mid, ∃ permission ∈ sg_permissions sg, q permission = true) := by
  induction hf with
  | nil => exact Iff.rfl
  | cons hR htail ih =>
    constructor
    · rintro ⟨sg, hsg, permission, hperm, hq⟩
      rcases List.mem_cons.mp hsg with rfl | hmem
      · exact ⟨_, List.mem_cons_self _ _, permission, hR.2.mem_iff.mp hperm, hq⟩
      · obtain ⟨sg', hsg', rest⟩ := ih.mp ⟨sg, hmem, permission, hperm, hq⟩
        exact ⟨sg', List.mem_cons_of_mem _ hsg', rest⟩
    · rintro ⟨sg, hsg, permission, hperm, hq⟩
      rcases List.mem_cons.mp hsg with rfl | hmem
      · exact ⟨_, List.mem_cons_self _ _, permission, hR.2.mem_iff.mpr hperm, hq⟩
      · obtain ⟨sg', hsg', rest⟩ := ih.mpr ⟨sg, hmem, permission, hperm, hq⟩
        exact ⟨sg', List.mem_cons_of_mem _ hsg', rest⟩

theorem sg_rearrangement_any {a b : List SecurityGroup}
    (q : IpPermission → Bool) (h : SgRearrangement a b) :
    (a.flatMap sg_permissions).any q = (b.flatMap sg_permissions).any q := by
  obtain ⟨mid, hf, hp⟩ := h
  apply bool_eq_of_iff
  rw [flatMap_any_iff, flatMap_any_iff]
  rw [forall₂_perm_exists_iff q hf]
  constructor
  · rintro ⟨sg, hsg, rest⟩
    exact ⟨sg, hp.subset hsg, rest⟩
  · rintro ⟨sg, hsg, rest⟩
    exact ⟨sg, hp.symm.subset hsg, rest⟩

theorem tag_value_created_name (name cluster : String) :
    tag_value (created_tags name cluster) "Name" = some name := by
  simp [tag_value, created_tags, List.find?]

theorem tag_value_created_cluster (name cluster : String) :
    tag_value (created_tags name cluster) "Cluster" = some cluster := by
  simp [tag_value, created_tags, List.find?,
    show (("Name" : String) == "Cluster") = false from by decide]

theorem matches_created_tags (name cluster : String) :
    matches_tag_filters (created_tags name cluster) name cluster = true := by
  simp [matches_tag_filters, tag_value_created_name, tag_value_created_cluster]

theorem map_sig_filter_congr {α β : Type} (sig : α → β) (p : α → Bool)
    (hp : ∀ x y, sig x = sig y → p x = p y) :
    ∀ {l l' : List α}, l.map sig = l'.map sig →
      (l.filter p).map sig = (l'.filter p).map sig := by
  intro l
  induction l with
  | nil =>
    intro l' h
    have hl' : l' = [] := List.map_eq_nil_iff.mp h.symm
    subst hl'
    rfl
  | cons a t ih =>
    intro l' h
    cases l' with
    | nil => simp at h
    | cons b t' =>
      simp only [List.map_cons, List.cons.injEq] at h
      obtain ⟨hab, ht⟩ := h
      rw [List.filter_cons, List.filter_cons, ← hp a b hab]
      cases hpa : p a
      · simpa using ih ht
      · simpa [hab] using ih ht

theorem map_sig_find?_congr {α β : Type} (sig : α → β) (p : α → Bool)
    (hp : ∀ x y, sig x = sig y → p x = p y) :
    ∀ {l l' : List α}, l.map sig = l'.map sig →
      (l.find? p).map sig = (l'.find? p).map sig := by
  intro l
  induction l with
  | nil =>
    intro l' h
    have hl' : l' = [] := List.map_eq_nil_iff.mp h.symm
    subst hl'
    rfl
  | cons a t ih =>
    intro l' h
    cases l' with
    | nil => simp at h
    | cons b t' =>
      simp only [List.map_cons, List.cons.injEq] at h
      obtain ⟨hab, ht⟩ := h
      cases hpa : p a
      · rw [List.find?_cons_of_neg _ (by simp [hpa]),
          List.find?_cons_of_neg _ (by rw [← hp a b hab]; simp [hpa])]
        exact ih ht
      · rw [List.find?_cons_of_pos _ hpa,
          List.find?_cons_of_pos _ (by rw [← hp a b hab]; exact hpa)]
        simpa using hab

theorem find_vpc_eq (vpcs : List Vpc) (cluster : String) :
    find_vpc vpcs cluster =
      match vpcs.filter fun vpc =>
          matches_tag_filters vpc.tags (resource_name cluster "vpc") cluster with
      | [] => .ok none
      | [vpc] => .ok (some vpc.vpc_id)
      | _ => .error ("multiple VPCs found for cluster " ++ cluster) := rfl

theorem find_instance_by_name_eq (instances : List InstanceRes) (name : String) :
    find_instance_by_name instances name =
      match instances_by_name instances name with
      | [] => .error ("no instance found with Name tag " ++ name)
      | [i] => .ok i
      | ms =>
        .error ("multiple instances found with Name tag " ++ name ++ ": " ++
          String.intercalate ", " (ms.map fun i => i.instance_id)) := rfl

theorem find_subnet_eq (subnets : List SubnetRes) (cluster : String) :
    find_subnet subnets cluster =
      match subnets.filter fun subnet =>
          matches_tag_filters subnet.tags (resource_name cluster "subnet") cluster with
      | [] => .ok none
      | [subnet] => .ok (some subnet.subnet_id)
      | _ => .error ("multiple subnets found for cluster " ++ cluster) := rfl

theorem find_internet_gateway_eq (igws : List InternetGateway) (cluster : String) :
    find_internet_gateway igws cluster =
      match igws.filter fun igw =>
          matches_tag_filters igw.tags (resource_name cluster "igw") cluster with
      | [] => .ok none
      | [igw] => .ok (some igw)
      | _ => .error ("multiple internet gateways found for cluster " ++ cluster) := rfl

theorem find_route_table_eq (tables : List RouteTableRes) (cluster : String) :
    find_route_table tables cluster =
      match tables.filter fun table =>
          matches_tag_filters table.tags (resource_name cluster "rt") cluster with
      | [] => .ok none
      | [table] => .ok (some table)
      | _ => .error ("multiple route tables found for cluster " ++ cluster) := rfl

theorem find_security_group_eq (groups : List SgRes) (cluster : String) :
    find_security_group groups cluster =
      match groups.filter fun sg =>
          matches_tag_filters sg.tags (resource_name cluster "sg") cluster with
      | [] => .ok none
      | [sg] => .ok (some sg.group_id)
      | _ => .error ("multiple security groups found for cluster " ++ cluster) := rfl

theorem ensure_vpc_idempotent {s s₁ : AwsState} {cluster vpc_id : String}
    (h : ensure_vpc s cluster = .ok (vpc_id, s₁)) :
    ensure_vpc s₁ cluster = .ok (vpc_id, s₁) := by
  unfold ensure_vpc at h
  rw [find_vpc_eq] at h
  cases hf : s.vpcs.filter fun vpc =>
      matches_tag_filters vpc.tags (resource_name cluster "vpc") cluster with
  | nil =>
    rw [hf] at h
    simp only [Except.ok.injEq, Prod.mk.injEq] at h
    obtain ⟨hid, hs⟩ := h
    subst hid
    subst hs
    unfold ensure_vpc
    rw [find_vpc_eq]
    have hfil : (({ s with
        vpcs := s.vpcs ++
          [{ vpc_id := fresh_id s "vpc"
             tags := created_tags (resource_name cluster "vpc") cluster }]
        next_id := s.next_id + 1 } : AwsState).vpcs.filter fun vpc =>
          matches_tag_filters vpc.tags (resource_name cluster "vpc") cluster) =
        [{ vpc_id := fresh_id s "vpc"
           tags := created_tags (resource_name cluster "vpc") cluster }] := by
      dsimp only
      rw [List.filter_append, hf]
      simp [matches_created_tags]
    rw [hfil]
  | cons a t =>
    cases t with
    | nil =>
      rw [hf] at h
      simp only [Except.ok.injEq, Prod.mk.injEq] at h
      obtain ⟨hid, hs⟩ := h
      subst hid
      subst hs
      unfold ensure_vpc
      rw [find_vpc_eq, hf]
    | cons b t₂ =>
      rw [hf] at h
      simp at h

theorem subnet_update_tags (i : String) (x : SubnetRes) :
    ((if x.subnet_id = i then { x with map_public_ip_on_launch := true }
      else x) : SubnetRes).tags = x.tags := by
  by_cases hx : x.subnet_id = i <;> simp [hx]

theorem subnet_update_id (i : String) (x : SubnetRes) :
    ((if x.subnet_id = i then { x with map_public_ip_on_launch := true }
      else x) : SubnetRes).subnet_id = x.subnet_id := by
  by_cases hx : x.subnet_id = i <;> simp [hx]

theorem ensure_subnet_idempotent {s s₁ : AwsState}
    {cluster vpc₀ subnet_id : String}
    (h : ensure_subnet s cluster vpc₀ = .ok (subnet_id, s₁)) :
    ∃ s₂, ensure_subnet s₁ cluster vpc₀ = .ok (subnet_id, s₂) ∧
      s₂.subnets.length = s₁.subnets.length := by
  unfold ensure_subnet at h
  rw [find_subnet_eq] at h
  cases hf : s.subnets.filter fun subnet =>
      matches_tag_filters subnet.tags (resource_name cluster "subnet") cluster with
  | nil =>
    rw [hf] at h
    simp only [Except.ok.injEq, Prod.mk.injEq] at h
    obtain ⟨hid, hs⟩ := h
    subst hid
    subst hs
    unfold ensure_subnet
    rw [find_subnet_eq]
    have hpred : ∀ x : SubnetRes,
        (matches_tag_filters ((if x.subnet_id = fresh_id s "subnet" then
            { x with map_public_ip_on_launch := true } else x) : SubnetRes).tags
          (resource_name cluster "subnet") cluster) =
        matches_tag_filters x.tags (resource_name cluster "subnet") cluster := by
      intro x
      rw [subnet_update_tags]
    have hfil : ((((s.subnets ++
        [({ subnet_id := fresh_id s "subnet", vpc_id := vpc₀,
            tags := created_tags (resource_name cluster "subnet") cluster,
            map_public_ip_on_launch := false } : SubnetRes)]).map fun sub =>
          if sub.subnet_id = fresh_id s "subnet" then
            { sub with map_public_ip_on_launch := true } else sub).filter fun subnet =>
          matches_tag_filters subnet.tags (resource_name cluster "subnet") cluster)) =
        [({ subnet_id := fresh_id s "subnet", vpc_id := vpc₀,
            tags := created_tags (resource_name cluster "subnet") cluster,
            map_public_ip_on_launch := true } : SubnetRes)] := by
      rw [filter_map_comm _ _ hpred, List.filter_append, hf]
      simp [matches_created_tags]
    dsimp only
    rw [hfil]
    exact ⟨_, rfl, by simp⟩
  | cons a t =>
    cases t with
    | nil =>
      rw [hf] at h
      simp only [Except.ok.injEq, Prod.mk.injEq] at h
      obtain ⟨hid, hs⟩ := h
      subst hid
      subst hs
      unfold ensure_subnet
      rw [find_subnet_eq]
      have hpred : ∀ x : SubnetRes,
          (matches_tag_filters ((if x.subnet_id = a.subnet_id then
              { x with map_public_ip_on_launch := true } else x) : SubnetRes).tags
            (resource_name cluster "subnet") cluster) =
          matches_tag_filters x.tags (resource_name cluster "subnet") cluster := by
        intro x
        rw [subnet_update_tags]
      have hfil : (((s.subnets.map fun sub =>
          if sub.subnet_id = a.subnet_id then
            { sub with map_public_ip_on_launch := true } else sub).filter fun subnet =>
          matches_tag_filters subnet.tags (resource_name cluster "subnet") cluster)) =
          [{ a with map_public_ip_on_launch := true }] := by
        rw [filter_map_comm _ _ hpred, hf]
        simp
      dsimp only
      rw [hfil]
      exact ⟨_, rfl, by simp⟩
    | cons b t₂ =>
      rw [hf] at h
      simp at h

theorem igw_attach_update_tags (i vpc₀ : String) (g : InternetGateway) :
    ((if g.internet_gateway_id = i then
        { g with attachments := some (g.attachments.getD [] ++ [{ vpc_id := some vpc₀ }]) }
      else g) : InternetGateway).tags = g.tags := by
  by_cases hg : g.internet_gateway_id = i <;> simp [hg]

theorem ensure_internet_gateway_idempotent {s s₁ : AwsState}
    {cluster vpc₀ igw_id : String}
    (h : ensure_internet_gateway s cluster vpc₀ = .ok (igw_id, s₁)) :
    ∃ s₂, ensure_internet_gateway s₁ cluster vpc₀ = .ok (igw_id, s₂) ∧
      s₂.igws.length = s₁.igws.length := by
  unfold ensure_internet_gateway at h
  rw [find_internet_gateway_eq] at h
  cases hf : s.igws.filter fun igw =>
      matches_tag_filters igw.tags (resource_name cluster "igw") cluster with
  | nil =>
    rw [hf] at h
    have hnotatt : igw_attached_to
        { internet_gateway_id := fresh_id s "igw"
          tags := created_tags (resource_name cluster "igw") cluster
          attachments := none } vpc₀ = false := rfl
    simp only [hnotatt, Bool.false_eq_true, if_false, Except.ok.injEq,
      Prod.mk.injEq] at h
    obtain ⟨hid, hs⟩ := h
    subst hid
    subst hs
    unfold ensure_internet_gateway
    rw [find_internet_gateway_eq]
    have hpred : ∀ x : InternetGateway,
        (matches_tag_filters ((if x.internet_gateway_id = fresh_id s "igw" then
            { x with attachments := some (x.attachments.getD [] ++ [{ vpc_id := some vpc₀ }]) }
          else x) : InternetGateway).tags
          (resource_name cluster "igw") cluster) =
        matches_tag_filters x.tags (resource_name cluster "igw") cluster := by
      intro x
      rw [igw_attach_update_tags]
    have hfil : (((((s.igws ++
        [({ internet_gateway_id := fresh_id s "igw",
            tags := created_tags (resource_name cluster "igw") cluster,
            attachments := none } : InternetGateway)]).map fun g =>
          if g.internet_gateway_id = fresh_id s "igw" then
            { g with attachments := some (g.attachments.getD [] ++ [{ vpc_id := some vpc₀ }]) }
          else g).filter fun igw =>
          matches_tag_filters igw.tags (resource_name cluster "igw") cluster)) =
        [({ internet_gateway_id := fresh_id s "igw",
            tags := created_tags (resource_name cluster "igw") cluster,
            attachments := some [{ vpc_id := some vpc₀ }] } : InternetGateway)]) := by
      rw [filter_map_comm _ _ hpred, List.filter_append, hf]
      simp [matches_created_tags]
    dsimp only [attach_internet_gateway]
    rw [hfil]
    dsimp only
    have hatt : igw_attached_to
        { internet_gateway_id := fresh_id s "igw"
          tags := created_tags (resource_name cluster "igw") cluster
          attachments := some [{ vpc_id := some vpc₀ }] } vpc₀ = true := by
      simp [igw_attached_to]
    rw [hatt]
    exact ⟨_, rfl, rfl⟩
  | cons a t =>
    cases t with
    | nil =>
      rw [hf] at h
      cases hatt : igw_attached_to a vpc₀ with
      | true =>
        simp only [hatt, if_true, Except.ok.injEq, Prod.mk.injEq] at h
        obtain ⟨hid, hs⟩ := h
        subst hid
        subst hs
        unfold ensure_internet_gateway
        rw [find_internet_gateway_eq, hf]
        dsimp only
        rw [hatt]
        exact ⟨_, rfl, rfl⟩
      | false =>
        simp only [hatt, Bool.false_eq_true, if_false, Except.ok.injEq,
          Prod.mk.injEq] at h
        obtain ⟨hid, hs⟩ := h
        subst hid
        subst hs
        unfold ensure_internet_gateway
        rw [find_internet_gateway_eq]
        have hpred : ∀ x : InternetGateway,
            (matches_tag_filters ((if x.internet_gateway_id = a.internet_gateway_id then
                { x with attachments := some (x.attachments.getD [] ++ [{ vpc_id := some vpc₀ }]) }
              else x) : InternetGateway).tags
              (resource_name cluster "igw") cluster) =
            matches_tag_filters x.tags (resource_name cluster "igw") cluster := by
          intro x
          rw [igw_attach_update_tags]
        have hfil : ((((s.igws.map fun g =>
            if g.internet_gateway_id = a.internet_gateway_id then
              { g with attachments := some (g.attachments.getD [] ++ [{ vpc_id := some vpc₀ }]) }
            else g).filter fun igw =>
            matches_tag_filters igw.tags (resource_name cluster "igw") cluster)) =
            [({ a with attachments := some (a.attachments.getD [] ++ [{ vpc_id := some vpc₀ }]) } :
              InternetGateway)]) := by
          rw [filter_map_comm _ _ hpred, hf]
          simp
        dsimp only [attach_internet_gateway]
        rw [hfil]
        dsimp only
        have hatt₂ : igw_attached_to
            ({ a with attachments := some (a.attachments.getD [] ++ [{ vpc_id := some vpc₀ }]) } :
              InternetGateway) vpc₀ = true := by
          simp [igw_attached_to]
        rw [hatt₂]
        exact ⟨_, rfl, rfl⟩
    | cons b t₂ =>
      rw [hf] at h
      simp at h

theorem authorize_fold_sig (ports : List Int) (sg_id : String) :
    ∀ s : AwsState,
      ((ports.foldl (fun acc port => authorize_sg_ingress acc sg_id port)
          s).security_groups.map fun g => (g.group_id, g.tags)) =
        s.security_groups.map fun g => (g.group_id, g.tags) := by
  induction ports with
  | nil => intro s; rfl
  | cons p ps ih =>
    intro s
    rw [List.foldl_cons]
    refine (ih _).trans ?_
    dsimp only [authorize_sg_ingress]
    rw [List.map_map]
    apply List.map_congr_left
    intro g _
    by_cases hgid : g.group_id = sg_id <;> simp [hgid]

theorem authorize_fold_length (ports : List Int) (sg_id : String) (s : AwsState) :
    (ports.foldl (fun acc port => authorize_sg_ingress acc sg_id port)
        s).security_groups.length = s.security_groups.length := by
  have := congrArg List.length (authorize_fold_sig ports sg_id s)
  simpa using this

theorem find_security_group_congr {l l' : List SgRes}
    (h : (l.map fun g => (g.group_id, g.tags)) =
      l'.map fun g => (g.group_id, g.tags)) (cluster : String) :
    find_security_group l cluster = find_security_group l' cluster := by
  have hfil := map_sig_filter_congr (fun g : SgRes => (g.group_id, g.tags))
    (fun g => matches_tag_filters g.tags (resource_name cluster "sg") cluster)
    (fun x y hxy => by
      have htags : x.tags = y.tags := congrArg Prod.snd hxy
      simp only [htags]) h
  rw [find_security_group_eq, find_security_group_eq]
  cases hA : l.filter fun g =>
      matches_tag_filters g.tags (resource_name cluster "sg") cluster with
  | nil =>
    rw [hA] at hfil
    have hB : (l'.filter fun g =>
        matches_tag_filters g.tags (resource_name cluster "sg") cluster) = [] :=
      List.map_eq_nil_iff.mp hfil.symm
    rw [hB]
  | cons a t =>
    cases hB : l'.filter fun g =>
        matches_tag_filters g.tags (resource_name cluster "sg") cluster with
    | nil =>
      rw [hA, hB] at hfil
      simp at hfil
    | cons b t' =>
      rw [hA, hB] at hfil
      simp only [List.map_cons, List.cons.injEq] at hfil
      obtain ⟨hab, ht⟩ := hfil
      cases t with
      | nil =>
        cases t' with
        | nil =>
          have hid : a.group_id = b.group_id := congrArg Prod.fst hab
          simp [hid]
        | cons c t₂ => simp at ht
      | cons c t₂ =>
        cases t' with
        | nil => simp at ht
        | cons d t₃ => rfl

theorem ensure_security_group_idempotent {s s₁ : AwsState}
    {cluster vpc₀ sg_id : String}
    (h : ensure_security_group s cluster vpc₀ = .ok (sg_id, s₁)) :
    ∃ s₂, ensure_security_group s₁ cluster vpc₀ = .ok (sg_id, s₂) ∧
      s₂.security_groups.length = s₁.security_groups.length := by
  unfold ensure_security_group at h
  rw [find_security_group_eq] at h
  cases hf : s.security_groups.filter fun sg =>
      matches_tag_filters sg.tags (resource_name cluster "sg") cluster with
  | nil =>
    rw [hf] at h
    simp only [Except.ok.injEq, Prod.mk.injEq] at h
    obtain ⟨hid, hs⟩ := h
    subst hid
    subst hs
    have hsig := authorize_fold_sig sg_ingress_ports (fresh_id s "sg")
      { s with
        security_groups := s.security_groups ++
          [{ group_id := fresh_id s "sg"
             tags := created_tags (resource_name cluster "sg") cluster
             ingress_ports := [] }]
        next_id := s.next_id + 1 }
    have hfind₂ : find_security_group
        (sg_ingress_ports.foldl
          (fun acc port => authorize_sg_ingress acc (fresh_id s "sg") port)
          { s with
            security_groups := s.security_groups ++
              [{ group_id := fresh_id s "sg"
                 tags := created_tags (resource_name cluster "sg") cluster
                 ingress_ports := [] }]
            next_id := s.next_id + 1 }).security_groups cluster =
        .ok (some (fresh_id s "sg")) := by
      rw [find_security_group_congr hsig cluster, find_security_group_eq]
      dsimp only
      rw [List.filter_append, hf]
      simp [matches_created_tags]
    unfold ensure_security_group
    rw [hfind₂]
    exact ⟨_, rfl, authorize_fold_length _ _ _⟩
  | cons a t =>
    cases t with
    | nil =>
      rw [hf] at h
      simp only [Except.ok.injEq, Prod.mk.injEq] at h
      obtain ⟨hid, hs⟩ := h
      subst hid
      subst hs
      have hsig := authorize_fold_sig sg_ingress_ports a.group_id s
      have hfind₂ : find_security_group
          (sg_ingress_ports.foldl
            (fun acc port => authorize_sg_ingress acc a.group_id port)
            s).security_groups cluster = .ok (some a.group_id) := by
        rw [find_security_group_congr hsig cluster, find_security_group_eq, hf]
      unfold ensure_security_group
      rw [hfind₂]
      exact ⟨_, rfl, authorize_fold_length _ _ _⟩
    | cons b t₂ =>
      rw [hf] at h
      simp at h

theorem ensure_default_route_ok_post {s s₁ : AwsState} {rtb igw : String}
    (h : ensure_default_route s rtb igw = .ok s₁) :
    ∃ t₁, (s₁.route_tables.find? fun t => t.route_table_id == rtb) = some t₁ ∧
      (t₁.routes.any fun r => r.1 == "0.0.0.0/0") = true := by
  have hc₁ : strContains "InvalidRouteTableID.NotFound" "RouteAlreadyExists" = false :=
    by decide
  have hc₂ : strContains "InvalidRouteTableID.NotFound" "InvalidRoute.Duplicate" = false :=
    by decide
  have hc₃ : strContains "An error occurred (RouteAlreadyExists)" "RouteAlreadyExists" = true :=
    by decide
  unfold ensure_default_route create_route replace_route at h
  cases hfind : s.route_tables.find? fun t => t.route_table_id == rtb with
  | none =>
    rw [hfind] at h
    simp [hc₁, hc₂] at h
  | some t₀ =>
    rw [hfind] at h
    have hid : t₀.route_table_id = rtb := by
      have := List.find?_some hfind
      exact beq_iff_eq.mp this
    have hpf₁ : ((fun t : RouteTableRes => t.route_table_id == rtb) ∘ fun t =>
        if t.route_table_id = rtb then
          { t with routes := t.routes ++ [("0.0.0.0/0", igw)] }
        else t) = fun t => t.route_table_id == rtb := by
      funext t
      by_cases ht : t.route_table_id = rtb <;> simp [ht]
    have hpf₂ : ((fun t : RouteTableRes => t.route_table_id == rtb) ∘ fun t =>
        if t.route_table_id = rtb then
          { t with routes := t.routes.map fun r =>
              if r.1 = "0.0.0.0/0" then ("0.0.0.0/0", igw) else r }
        else t) = fun t => t.route_table_id == rtb := by
      funext t
      by_cases ht : t.route_table_id = rtb <;> simp [ht]
    cases hany : t₀.routes.any fun r => r.1 == "0.0.0.0/0" with
    | false =>
      simp [hany] at h
      subst h
      refine ⟨{ t₀ with routes := t₀.routes ++ [("0.0.0.0/0", igw)] }, ?_, by simp⟩
      dsimp only
      rw [List.find?_map, hpf₁, hfind]
      simp [hid]
    | true =>
      simp [hfind, hany, hc₃] at h
      subst h
      refine ⟨{ t₀ with routes := t₀.routes.map fun r =>
          if r.1 = "0.0.0.0/0" then ("0.0.0.0/0", igw) else r }, ?_, ?_⟩
      · dsimp only
        rw [List.find?_map, hpf₂, hfind]
        simp [hid]
      · dsimp only
        obtain ⟨r₀, hr, hr₁⟩ := List.any_eq_true.mp hany
        apply List.any_eq_true.mpr
        have hre : r₀.1 = "0.0.0.0/0" := beq_iff_eq.mp hr₁
        refine ⟨("0.0.0.0/0", igw), ?_, by simp⟩
        have hmm := List.mem_map_of_mem
          (fun r : String × String =>
            if r.1 = "0.0.0.0/0" then ("0.0.0.0/0", igw) else r) hr
        simpa [hre] using hmm

theorem ensure_default_route_sig {s s' : AwsState} {rtb igw : String}
    (h : ensure_default_route s rtb igw = .ok s') :
    (s'.route_tables.map fun t => (t.route_table_id, t.tags)) =
      s.route_tables.map fun t => (t.route_table_id, t.tags) := by
  have hc₁ : strContains "InvalidRouteTableID.NotFound" "RouteAlreadyExists" = false :=
    by decide
  have hc₂ : strContains "InvalidRouteTableID.NotFound" "InvalidRoute.Duplicate" = false :=
    by decide
  have hc₃ : strContains "An error occurred (RouteAlreadyExists)" "RouteAlreadyExists" = true :=
    by decide
  unfold ensure_default_route create_route replace_route at h
  cases hfind : s.route_tables.find? fun t => t.route_table_id == rtb with
  | none =>
    rw [hfind] at h
    simp [hc₁, hc₂] at h
  | some t₀ =>
    rw [hfind] at h
    cases hany : t₀.routes.any fun r => r.1 == "0.0.0.0/0" with
    | false =>
      simp [hany] at h
      subst h
      dsimp only
      rw [List.map_map]
      apply List.map_congr_left
      intro t _
      by_cases ht : t.route_table_id = rtb <;> simp [ht]
    | true =>
      simp [hfind, hany, hc₃] at h
      subst h
      dsimp only
      rw [List.map_map]
      apply List.map_congr_left
      intro t _
      by_cases ht : t.route_table_id = rtb <;> simp [ht]

theorem ensure_default_route_length {s s' : AwsState} {rtb igw : String}
    (h : ensure_default_route s rtb igw = .ok s') :
    s'.route_tables.length = s.route_tables.length := by
  have := congrArg List.length (ensure_default_route_sig h)
  simpa using this

theorem ensure_default_route_succeeds {s : AwsState} {rtb igw : String}
    {t : RouteTableRes}
    (hfind : (s.route_tables.find? fun x => x.route_table_id == rtb) = some t)
    (hany : (t.routes.any fun r => r.1 == "0.0.0.0/0") = true) :
    ∃ s', ensure_default_route s rtb igw = .ok s' := by
  have hc₃ : strContains "An error occurred (RouteAlreadyExists)"
      "RouteAlreadyExists" = true := by decide
  unfold ensure_default_route create_route replace_route
  simp [hfind, hany, hc₃]

theorem replace_assoc_proj (association_id rtb sub : String) (s : AwsState) :
    ((replace_route_table_association s association_id rtb sub).route_tables.map
      fun t => (t.route_table_id, t.tags, t.routes)) =
    s.route_tables.map fun t => (t.route_table_id, t.tags, t.routes) := by
  dsimp only [replace_route_table_association]
  rw [List.map_map]
  apply List.map_congr_left
  intro t _
  by_cases ht : t.route_table_id = rtb <;> simp [ht]

theorem ensure_rtb_assoc_post {s s' : AwsState} {rtb sub : String}
    (h : ensure_route_table_association s rtb sub = .ok s') :
    (s'.route_tables.map fun t => (t.route_table_id, t.tags, t.routes)) =
      s.route_tables.map fun t => (t.route_table_id, t.tags, t.routes) := by
  have hca : strContains "An error occurred (Resource.AlreadyAssociated)"
      "Resource.AlreadyAssociated" = true := by decide
  unfold ensure_route_table_association at h
  dsimp only at h
  cases hdec : assoc_decision (s.route_tables.filter fun t =>
      t.associations.any fun a => a.subnet_id == some sub) rtb sub with
  | already =>
    rw [hdec] at h
    simp at h
    subst h
    rfl
  | replaceAssoc association_id =>
    rw [hdec] at h
    simp at h
    subst h
    exact replace_assoc_proj association_id rtb sub s
  | associate =>
    rw [hdec] at h
    unfold associate_route_table at h
    cases hex : s.route_tables.any fun t =>
        t.associations.any fun a => a.subnet_id == some sub with
    | true =>
      simp [hex, hca] at h
      subst h
      rfl
    | false =>
      simp [hex] at h
      subst h
      dsimp only
      rw [List.map_map]
      apply List.map_congr_left
      intro t _
      by_cases ht : t.route_table_id = rtb <;> simp [ht]

theorem ensure_rtb_assoc_ok (s : AwsState) (rtb sub : String) :
    ∃ s', ensure_route_table_association s rtb sub = .ok s' := by
  have hca : strContains "An error occurred (Resource.AlreadyAssociated)"
      "Resource.AlreadyAssociated" = true := by decide
  cases hres : ensure_route_table_association s rtb sub with
  | ok s' => exact ⟨s', rfl⟩
  | error e =>
    exfalso
    unfold ensure_route_table_association at hres
    dsimp only at hres
    cases hdec : assoc_decision (s.route_tables.filter fun t =>
        t.associations.any fun a => a.subnet_id == some sub) rtb sub with
    | already => rw [hdec] at hres; simp at hres
    | replaceAssoc association_id => rw [hdec] at hres; simp at hres
    | associate =>
      rw [hdec] at hres
      unfold associate_route_table at hres
      cases hex : s.route_tables.any fun t =>
          t.associations.any fun a => a.subnet_id == some sub with
      | true => simp [hex, hca] at hres
      | false => simp [hex] at hres

theorem rt_sig_of_proj {l l' : List RouteTableRes}
    (h : (l.map fun t => (t.route_table_id, t.tags, t.routes)) =
      l'.map fun t => (t.route_table_id, t.tags, t.routes)) :
    (l.map fun t => (t.route_table_id, t.tags)) =
      l'.map fun t => (t.route_table_id, t.tags) := by
  have hmap := congrArg
    (List.map fun p : String × Option (List Tag) × List (String × String) =>
      (p.1, p.2.1)) h
  simpa [List.map_map, Function.comp] using hmap

theorem find_route_table_sig {l l' : List RouteTableRes} {cluster : String}
    {t : RouteTableRes}
    (h : (l.map fun x => (x.route_table_id, x.tags)) =
      l'.map fun x => (x.route_table_id, x.tags))
    (hfind : find_route_table l cluster = .ok (some t)) :
    ∃ t', find_route_table l' cluster = .ok (some t') ∧
      t'.route_table_id = t.route_table_id := by
  have hfil := map_sig_filter_congr (fun x : RouteTableRes => (x.route_table_id, x.tags))
    (fun x => matches_tag_filters x.tags (resource_name cluster "rt") cluster)
    (fun x y hxy => by
      have htags : x.tags = y.tags := congrArg Prod.snd hxy
      simp only [htags]) h
  rw [find_route_table_eq] at hfind
  cases hA : l.filter fun x =>
      matches_tag_filters x.tags (resource_name cluster "rt") cluster with
  | nil => rw [hA] at hfind; simp at hfind
  | cons a u =>
    cases u with
    | nil =>
      rw [hA] at hfind
      simp at hfind
      subst hfind
      rw [hA] at hfil
      cases hB : l'.filter fun x =>
          matches_tag_filters x.tags (resource_name cluster "rt") cluster with
      | nil => rw [hB] at hfil; simp at hfil
      | cons b v =>
        cases v with
        | nil =>
          rw [hB] at hfil
          simp only [List.map_cons, List.map_nil, List.cons.injEq] at hfil
          obtain ⟨hab, -⟩ := hfil
          exact ⟨b, by rw [find_route_table_eq, hB],
            (congrArg Prod.fst hab).symm⟩
        | cons c w => rw [hB] at hfil; simp at hfil
    | cons c w => rw [hA] at hfind; simp at hfind

theorem rt_find_by_id_transfer {l l' : List RouteTableRes} {rtb : String}
    {t : RouteTableRes}
    (h : (l.map fun x => (x.route_table_id, x.tags, x.routes)) =
      l'.map fun x => (x.route_table_id, x.tags, x.routes))
    (hfind : (l.find? fun x => x.route_table_id == rtb) = some t) :
    ∃ t', (l'.find? fun x => x.route_table_id == rtb) = some t' ∧
      t'.routes = t.routes := by
  have hcongr := map_sig_find?_congr
    (fun x : RouteTableRes => (x.route_table_id, x.tags, x.routes))
    (fun x => x.route_table_id == rtb)
    (fun x y hxy => by
      have hid : x.route_table_id = y.route_table_id := congrArg Prod.fst hxy
      simp only [hid]) h
  rw [hfind] at hcongr
  cases hf' : l'.find? fun x => x.route_table_id == rtb with
  | none => rw [hf'] at hcongr; simp at hcongr
  | some u =>
    rw [hf'] at hcongr
    simp only [Option.map_some', Option.some.injEq] at hcongr
    exact ⟨u, rfl, (congrArg (fun p => p.2.2) hcongr).symm⟩

theorem ensure_route_table_second {sₐ s_b s₁ : AwsState}
    {cluster vpc₀ subnet₀ igw₀ rt_id : String} {tₐ : RouteTableRes}
    (hfindₐ : find_route_table sₐ.route_tables cluster = .ok (some tₐ))
    (hidₐ : tₐ.route_table_id = rt_id)
    (hdr : ensure_default_route sₐ rt_id igw₀ = .ok s_b)
    (has : ensure_route_table_association s_b rt_id subnet₀ = .ok s₁) :
    ∃ s₂, ensure_route_table s₁ cluster vpc₀ subnet₀ igw₀ = .ok (rt_id, s₂) ∧
      s₂.route_tables.length = s₁.route_tables.length := by
  have hsig_b := ensure_default_route_sig hdr
  have hproj₁ := ensure_rtb_assoc_post has
  have hsig₁ : (s₁.route_tables.map fun x => (x.route_table_id, x.tags)) =
      sₐ.route_tables.map fun x => (x.route_table_id, x.tags) :=
    (rt_sig_of_proj hproj₁).trans hsig_b
  obtain ⟨t₁, hfind₁, hid₁⟩ := find_route_table_sig hsig₁.symm hfindₐ
  obtain ⟨t_b, hfb, hanyb⟩ := ensure_default_route_ok_post hdr
  obtain ⟨t₁', hfind₁', hroutes⟩ := rt_find_by_id_transfer hproj₁.symm hfb
  have hany₁' : (t₁'.routes.any fun r => r.1 == "0.0.0.0/0") = true := by
    rw [hroutes]; exact hanyb
  obtain ⟨s₂', hdr₂⟩ := @ensure_default_route_succeeds _ _ igw₀ _ hfind₁' hany₁'
  obtain ⟨s₃, has₃⟩ := ensure_rtb_assoc_ok s₂' rt_id subnet₀
  have hid' : t₁.route_table_id = rt_id := hid₁.trans hidₐ
  refine ⟨s₃, ?_, ?_⟩
  · unfold ensure_route_table
    rw [hfind₁]
    dsimp only
    rw [hid', hdr₂]
    dsimp only
    rw [has₃]
  · have h₁ := congrArg List.length (ensure_rtb_assoc_post has₃)
    simp only [List.length_map] at h₁
    exact h₁.trans (ensure_default_route_length hdr₂)

theorem ensure_route_table_idempotent {s s₁ : AwsState}
    {cluster vpc₀ subnet₀ igw₀ rt_id : String}
    (h : ensure_route_table s cluster vpc₀ subnet₀ igw₀ = .ok (rt_id, s₁)) :
    ∃ s₂, ensure_route_table s₁ cluster vpc₀ subnet₀ igw₀ = .ok (rt_id, s₂) ∧
      s₂.route_tables.length = s₁.route_tables.length := by
  unfold ensure_route_table at h
  rw [find_route_table_eq] at h
  cases hf : s.route_tables.filter fun table =>
      matches_tag_filters table.tags (resource_name cluster "rt") cluster with
  | nil =>
    rw [hf] at h
    dsimp only at h
    split at h
    next e heq => simp at h
    next s_b heq =>
      split at h
      next e₂ heq₂ => simp at h
      next s_c heq₃ =>
        simp only [Except.ok.injEq, Prod.mk.injEq] at h
        obtain ⟨hid, hs⟩ := h
        subst hid
        subst hs
        have hfindA : find_route_table
            ({ s with
                route_tables := s.route_tables ++
                  [{ route_table_id := fresh_id s "rtb"
                     tags := created_tags (resource_name cluster "rt") cluster
                     routes := []
                     associations := [] }]
                next_id := s.next_id + 1 } : AwsState).route_tables cluster =
            .ok (some
              { route_table_id := fresh_id s "rtb"
                tags := created_tags (resource_name cluster "rt") cluster
                routes := []
                associations := [] }) := by
          rw [find_route_table_eq]
          dsimp only
          rw [List.filter_append, hf]
          simp [matches_created_tags]
        exact ensure_route_table_second hfindA rfl heq heq₃
  | cons a u =>
    cases u with
    | nil =>
      rw [hf] at h
      dsimp only at h
      split at h
      next e heq => simp at h
      next s_b heq =>
        split at h
        next e₂ heq₂ => simp at h
        next s_c heq₃ =>
          simp only [Except.ok.injEq, Prod.mk.injEq] at h
          obtain ⟨hid, hs⟩ := h
          subst hid
          subst hs
          have hfindA : find_route_table s.route_tables cluster = .ok (some a) := by
            rw [find_route_table_eq, hf]
          exact ensure_route_table_second hfindA rfl heq heq₃
    | cons b u₂ =>
      rw [hf] at h
      simp at h

theorem toNat_ofNat_valid {n : Nat} (h : n.isValidChar) :
    (Char.ofNat n).toNat = n := by
  unfold Char.ofNat
  rw [dif_pos h]
  rfl

theorem asciiLowerChar_allowed {c : Char} (h : isAsciiAlnum c = true) :
    (isAsciiLowerAlpha (asciiLowerChar c) || isAsciiDigit (asciiLowerChar c)) = true := by
  unfold isAsciiAlnum isAsciiAlphabetic at h
  unfold asciiLowerChar
  by_cases hup : isAsciiUpper c = true
  · rw [if_pos hup]
    unfold isAsciiUpper at hup
    simp only [Bool.and_eq_true, decide_eq_true_eq] at hup
    obtain ⟨h₁, h₂⟩ := hup
    have hvalid : (c.toNat + 32).isValidChar := Or.inl (by omega)
    unfold isAsciiLowerAlpha isAsciiDigit
    rw [toNat_ofNat_valid hvalid]
    simp only [Bool.or_eq_true, Bool.and_eq_true, decide_eq_true_eq]
    left
    omega
  · rw [if_neg hup]
    simp only [Bool.or_eq_true] at h
    rcases h with (h | h) | h
    · exact absurd h hup
    · simp [h]
    · simp [h]

theorem asciiLowerChar_ne_hyphen {c : Char} (h : isAsciiAlnum c = true) :
    (asciiLowerChar c == '-') = false := by
  have hall := asciiLowerChar_allowed h
  by_cases hbeq : (asciiLowerChar c == '-') = true
  · have heq : asciiLowerChar c = '-' := beq_iff_eq.mp hbeq
    rw [heq] at hall
    exact absurd hall (by decide)
  · exact Bool.eq_false_iff.mpr hbeq

theorem push_sanitized_allowed {out : List Char} {ch : Char}
    (hall : ∀ c ∈ out, (isAsciiLowerAlpha c || isAsciiDigit c || c == '-') = true) :
    ∀ c ∈ push_sanitized out ch,
      (isAsciiLowerAlpha c || isAsciiDigit c || c == '-') = true := by
  unfold push_sanitized
  by_cases halnum : isAsciiAlnum ch = true
  · rw [if_pos halnum]
    intro c hc
    rcases List.mem_append.mp hc with hc | hc
    · exact hall c hc
    · simp only [List.mem_singleton] at hc
      subst hc
      have hlow := asciiLowerChar_allowed halnum
      simp [Bool.or_assoc, hlow]
  · rw [if_neg halnum]
    by_cases hlast : out.getLast? = some '-'
    · rw [if_pos hlast]
      exact hall
    · rw [if_neg hlast]
      intro c hc
      rcases List.mem_append.mp hc with hc | hc
      · exact hall c hc
      · simp only [List.mem_singleton] at hc
        subst hc
        decide

theorem push_sanitized_chain {out : List Char} {ch : Char}
    (hch : List.Chain' (fun a b => (a == '-' && b == '-') = false) out) :
    List.Chain' (fun a b => (a == '-' && b == '-') = false)
      (push_sanitized out ch) := by
  unfold push_sanitized
  by_cases halnum : isAsciiAlnum ch = true
  · rw [if_pos halnum]
    apply List.Chain'.append hch (List.chain'_singleton _)
    intro x hx y hy
    simp only [List.head?_cons, Option.mem_def, Option.some.injEq] at hy
    subst hy
    rw [asciiLowerChar_ne_hyphen halnum]
    simp
  · rw [if_neg halnum]
    by_cases hlast : out.getLast? = some '-'
    · rw [if_pos hlast]
      exact hch
    · rw [if_neg hlast]
      apply List.Chain'.append hch (List.chain'_singleton _)
      intro x hx y hy
      simp only [List.head?_cons, Option.mem_def, Option.some.injEq] at hy
      subst hy
      have hx' : out.getLast? = some x := hx
      have hxne : x ≠ '-' := by
        intro hxe
        exact hlast (hxe ▸ hx')
      simp [hxne]

theorem sanitize_build_invariant : ∀ (cs out : List Char),
    (∀ c ∈ out, (isAsciiLowerAlpha c || isAsciiDigit c || c == '-') = true) →
    List.Chain' (fun a b => (a == '-' && b == '-') = false) out →
    (∀ c ∈ sanitize_build out cs,
      (isAsciiLowerAlpha c || isAsciiDigit c || c == '-') = true) ∧
    List.Chain' (fun a b => (a == '-' && b == '-') = false)
      (sanitize_build out cs) := by
  intro cs
  induction cs with
  | nil => exact fun out hall hch => ⟨hall, hch⟩
  | cons ch rest ih =>
    intro out hall hch
    exact ih (push_sanitized out ch) (push_sanitized_allowed hall)
      (push_sanitized_chain hch)

theorem getLast?_cons_ne {a : Char} {l : List Char} (h : l ≠ []) :
    (a :: l).getLast? = l.getLast? := by
  cases l with
  | nil => exact absurd rfl h
  | cons b t => simp [List.getLast?]

/-! ### Claim theorems -/

/-- C1: for every instance state, tri-state checks value and probe result,
`summarize_health` computes exactly the six rules of section 4.4, evaluated
top-to-bottom with first match winning: not-running wins with Unreachable;
then failing checks give Degraded; then passing checks plus probe success
give Ok with local-problem true; then a closed firewall posture gives
Degraded; then unknown checks give Degraded (probe success) or Unknown;
else the Degraded fallback. -/
theorem summarize_health_follows_spec (instance_state : String)
    (checks : Option Bool) (probe : EicProbeResult) :
    summarize_health instance_state checks probe =
      health_verdict_spec instance_state checks probe := by
  dsimp only [summarize_health, health_verdict_spec]
  split_ifs <;> rfl

/-- C5: the derived tri-state is `some true` exactly when both normalized
sub-statuses are "ok", `none` exactly when either is "unknown" (absence
having been normalized to "unknown"), and `some false` in every other
combination. -/
theorem ec2_status_checks_tri_state (instance_id instance_state : String)
    (sys inst : Option Ec2StatusSummary) :
    ((ec2_status_checks_of_entry (some ⟨instance_id, sys, inst⟩)
        instance_state).checks_pass = some true ↔
      sub_status_string sys = "ok" ∧ sub_status_string inst = "ok") ∧
    ((ec2_status_checks_of_entry (some ⟨instance_id, sys, inst⟩)
        instance_state).checks_pass = none ↔
      (sub_status_string sys = "unknown" ∨ sub_status_string inst = "unknown")) ∧
    (¬(sub_status_string sys = "ok" ∧ sub_status_string inst = "ok") →
      ¬(sub_status_string sys = "unknown" ∨ sub_status_string inst = "unknown") →
      (ec2_status_checks_of_entry (some ⟨instance_id, sys, inst⟩)
        instance_state).checks_pass = some false) := by
  have hcp : (ec2_status_checks_of_entry (some ⟨instance_id, sys, inst⟩)
      instance_state).checks_pass =
      checks_pass_of (sub_status_string sys) (sub_status_string inst) := rfl
  rw [hcp]
  generalize sub_status_string sys = a
  generalize sub_status_string inst = b
  unfold checks_pass_of
  split_ifs with h₁ h₂
  · obtain ⟨ha, hb⟩ := h₁
    subst ha; subst hb
    refine ⟨by simp, by simp, fun hn _ => absurd ⟨rfl, rfl⟩ hn⟩
  · refine ⟨⟨fun h => by simp at h, fun hab => ?_⟩,
      ⟨fun _ => h₂, fun _ => rfl⟩, fun _ hn₂ => absurd h₂ hn₂⟩
    rcases h₂ with h | h
    · rw [hab.1] at h; exact absurd h (by decide)
    · rw [hab.2] at h; exact absurd h (by decide)
  · exact ⟨⟨fun h => by simp at h, fun hab => absurd hab h₁⟩,
      ⟨fun h => by simp at h, fun hu => absurd hu h₂⟩, fun _ _ => rfl⟩

/-- C6: the probe-skip reason is chosen in strict precedence order —
not-running, then missing public IP, then missing placement zone, then
missing local key — the probe is attempted exactly when all four
preconditions hold, and whenever a skip reason exists the probe call
returns the Skipped outcome carrying that reason, ignoring the provider. -/
theorem eic_skip_reason_precedence (r p a k : Bool) :
    (r = false → eic_send_key_skip_reason r p a k = some "instance-not-running") ∧
    (r = true → p = false →
      eic_send_key_skip_reason r p a k = some "no-public-ip") ∧
    (r = true → p = true → a = false →
      eic_send_key_skip_reason r p a k = some "availability-zone-missing") ∧
    (r = true → p = true → a = true → k = false →
      eic_send_key_skip_reason r p a k = some "ssh-public-key-not-found") ∧
    (eic_send_key_skip_reason r p a k = none ↔
      r = true ∧ p = true ∧ a = true ∧ k = true) ∧
    (∀ (sg : SgPort22Status) (os_user : String) (resp : EicResponse)
        (reason : String),
      eic_send_key_skip_reason r p a k = some reason →
      run_eic_probe r p a k sg os_user resp =
        .ok ⟨os_user, p, r, a, sg, .Skipped, some reason⟩) := by
  cases r <;> cases p <;> cases a <;> cases k <;>
    simp [eic_send_key_skip_reason, run_eic_probe]

/-- C7: when the probe is attempted and the provider call fails, an
access-denied-class error text makes the probe fatal (never an `ok`
result), while any other failure yields a non-fatal Failed outcome with
the provider's error text as the recorded reason. -/
theorem run_eic_probe_access_denied (sg : SgPort22Status)
    (os_user message : String) :
    (is_access_denied_error message = true →
      run_eic_probe true true true true sg os_user (.failure message) =
        .error ("ec2-instance-connect send-ssh-public-key failed: " ++ message)) ∧
    (is_access_denied_error message = false →
      run_eic_probe true true true true sg os_user (.failure message) =
        .ok ⟨os_user, true, true, true, sg, .Failed, some message⟩) ∧
    (is_access_denied_error message = true →
      ∀ result : EicProbeResult,
        run_eic_probe true true true true sg os_user (.failure message) ≠
          .ok result) := by
  refine ⟨fun h => ?_, fun h => ?_, fun h result => ?_⟩ <;>
    simp [run_eic_probe, eic_send_key_skip_reason, h]

/-- C2: the port-22 classifier is open-world exactly when some rule
matching port 22 has a wildcard (0.0.0.0/0 or ::/0) source, unknown
exactly when there are no security groups, restricted when a matching rule
has a concrete source but none has a wildcard one, closed when groups
exist but no rule matches the port, and invariant under reordering of the
groups and of the rules within each group. -/
theorem classify_sg_port_22_contract (sgs sgs' : List SecurityGroup)
    (hre : SgRearrangement sgs sgs') :
    (classify_sg_port_22 sgs = .OpenWorld ↔
      ∃ sg ∈ sgs, ∃ permission ∈ sg_permissions sg,
        permission_allows_tcp_port permission 22 = true ∧
        permission_has_world_source permission = true) ∧
    (classify_sg_port_22 sgs = .Unknown ↔ sgs = []) ∧
    (sgs ≠ [] →
      (∀ sg ∈ sgs, ∀ permission ∈ sg_permissions sg,
        ¬(permission_allows_tcp_port permission 22 = true ∧
          permission_has_world_source permission = true)) →
      (∃ sg ∈ sgs, ∃ permission ∈ sg_permissions sg,
        permission_allows_tcp_port permission 22 = true ∧
        permission_has_any_source permission = true) →
      classify_sg_port_22 sgs = .Restricted) ∧
    (sgs ≠ [] →
      (∀ sg ∈ sgs, ∀ permission ∈ sg_permissions sg,
        permission_allows_tcp_port permission 22 = false) →
      classify_sg_port_22 sgs = .Closed) ∧
    classify_sg_port_22 sgs' = classify_sg_port_22 sgs := by
  have hW : (sgs.flatMap sg_permissions).any matching_world = true ↔
      ∃ sg ∈ sgs, ∃ permission ∈ sg_permissions sg,
        permission_allows_tcp_port permission 22 = true ∧
        permission_has_world_source permission = true := by
    rw [flatMap_any_iff]
    simp only [matching_world, Bool.and_eq_true]
  have hS : (sgs.flatMap sg_permissions).any matching_any = true ↔
      ∃ sg ∈ sgs, ∃ permission ∈ sg_permissions sg,
        permission_allows_tcp_port permission 22 = true ∧
        permission_has_any_source permission = true := by
    rw [flatMap_any_iff]
    simp only [matching_any, Bool.and_eq_true]
  have hperm : classify_sg_port_22 sgs' = classify_sg_port_22 sgs := by
    have hany₁ := sg_rearrangement_any matching_world hre
    have hany₂ := sg_rearrangement_any matching_any hre
    have hempq : sgs'.isEmpty = sgs.isEmpty := by
      apply bool_eq_of_iff
      rw [List.isEmpty_iff, List.isEmpty_iff, ← List.length_eq_zero,
        ← List.length_eq_zero, sg_rearrangement_length hre]
    rw [classify_sg_port_22_eq sgs', classify_sg_port_22_eq sgs, hempq,
      ← hany₁, ← hany₂]
  refine ⟨?_, ?_, ?_, ?_, hperm⟩
  · rw [classify_sg_port_22_eq, ← hW]
    by_cases hemp : sgs.isEmpty
    · have hnil : sgs = [] := List.isEmpty_iff.mp hemp
      subst hnil
      simp
    · by_cases hw : (sgs.flatMap sg_permissions).any matching_world
      · simp [hemp, hw]
      · by_cases hs : (sgs.flatMap sg_permissions).any matching_any <;>
          simp [hemp, hw, hs]
  · rw [classify_sg_port_22_eq]
    by_cases hemp : sgs.isEmpty
    · have hnil : sgs = [] := List.isEmpty_iff.mp hemp
      subst hnil
      simp
    · have hne : ¬sgs = [] := fun h => hemp (by simp [h])
      by_cases hw : (sgs.flatMap sg_permissions).any matching_world
      · simp [hemp, hw, hne]
      · by_cases hs : (sgs.flatMap sg_permissions).any matching_any <;>
          simp [hemp, hw, hs, hne]
  · intro hne hnoW hexS
    have hw : ¬(sgs.flatMap sg_permissions).any matching_world = true := by
      intro h
      obtain ⟨sg, hsg, permission, hp, hq⟩ := hW.mp h
      exact hnoW sg hsg permission hp hq
    have hs : (sgs.flatMap sg_permissions).any matching_any = true := hS.mpr hexS
    have hemp : sgs.isEmpty = false := by
      cases h : sgs.isEmpty
      · rfl
      · exact absurd (List.isEmpty_iff.mp h) hne
    rw [classify_sg_port_22_eq]
    simp [hemp, hw, hs]
  · intro hne hnoMatch
    have hw : ¬(sgs.flatMap sg_permissions).any matching_world = true := by
      intro h
      obtain ⟨sg, hsg, permission, hp, hq, _⟩ := hW.mp h
      rw [hnoMatch sg hsg permission hp] at hq
      exact Bool.false_ne_true hq
    have hs : ¬(sgs.flatMap sg_permissions).any matching_any = true := by
      intro h
      obtain ⟨sg, hsg, permission, hp, hq, _⟩ := hS.mp h
      rw [hnoMatch sg hsg permission hp] at hq
      exact Bool.false_ne_true hq
    have hemp : sgs.isEmpty = false := by
      cases h : sgs.isEmpty
      · rfl
      · exact absurd (List.isEmpty_iff.mp h) hne
    rw [classify_sg_port_22_eq]
    simp [hemp, hw, hs]

/-- Witness for C2: a two-group fixture, reordered, with a wildcard rule. -/
theorem classify_sg_port_22_contract_witness :
    classify_sg_port_22
        [⟨"sg-2", some [⟨some "tcp", some 22, some 22,
            some [⟨some "0.0.0.0/0"⟩], none, none, none⟩]⟩,
         ⟨"sg-1", some [⟨some "tcp", some 22, some 22,
            some [⟨some "203.0.113.0/24"⟩], none, none, none⟩]⟩] =
      classify_sg_port_22
        [⟨"sg-1", some [⟨some "tcp", some 22, some 22,
            some [⟨some "203.0.113.0/24"⟩], none, none, none⟩]⟩,
         ⟨"sg-2", some [⟨some "tcp", some 22, some 22,
            some [⟨some "0.0.0.0/0"⟩], none, none, none⟩]⟩] ∧
    classify_sg_port_22
        [⟨"sg-1", some [⟨some "tcp", some 22, some 22,
            some [⟨some "203.0.113.0/24"⟩], none, none, none⟩]⟩,
         ⟨"sg-2", some [⟨some "tcp", some 22, some 22,
            some [⟨some "0.0.0.0/0"⟩], none, none, none⟩]⟩] =
      SgPort22Status.OpenWorld := by
  have hre : SgRearrangement
      [⟨"sg-1", some [⟨some "tcp", some 22, some 22,
          some [⟨some "203.0.113.0/24"⟩], none, none, none⟩]⟩,
       ⟨"sg-2", some [⟨some "tcp", some 22, some 22,
          some [⟨some "0.0.0.0/0"⟩], none, none, none⟩]⟩]
      [⟨"sg-2", some [⟨some "tcp", some 22, some 22,
          some [⟨some "0.0.0.0/0"⟩], none, none, none⟩]⟩,
       ⟨"sg-1", some [⟨some "tcp", some 22, some 22,
          some [⟨some "203.0.113.0/24"⟩], none, none, none⟩]⟩] :=
    ⟨_, List.Forall₂.cons ⟨rfl, List.Perm.refl _⟩
        (List.Forall₂.cons ⟨rfl, List.Perm.refl _⟩ List.Forall₂.nil),
      List.Perm.swap _ _ []⟩
  refine ⟨(classify_sg_port_22_contract _ _ hre).2.2.2.2,
    (classify_sg_port_22_contract _ _ hre).1.mpr ?_⟩
  refine ⟨⟨"sg-2", some [⟨some "tcp", some 22, some 22,
      some [⟨some "0.0.0.0/0"⟩], none, none, none⟩]⟩, by decide,
    ⟨some "tcp", some 22, some 22, some [⟨some "0.0.0.0/0"⟩], none, none, none⟩,
    by decide, by decide, by decide⟩

/-- C4: for every resource kind (network, subnet, internet gateway, route
table, security group) the tag-based locator returns None on zero matches,
the single match on one, and an ambiguity error on two or more; the
display-name instance lookup (no Cluster filter) likewise errors on two or
more non-terminated matches. -/
theorem locator_ambiguity_contract (vpcs : List Vpc) (subnets : List SubnetRes)
    (igws : List InternetGateway) (tables : List RouteTableRes)
    (groups : List SgRes) (cluster : String)
    (instances : List InstanceRes) (name : String) :
    ((vpcs.filter fun vpc =>
        matches_tag_filters vpc.tags (resource_name cluster "vpc") cluster) = [] →
      find_vpc vpcs cluster = .ok none) ∧
    (∀ v, (vpcs.filter fun vpc =>
        matches_tag_filters vpc.tags (resource_name cluster "vpc") cluster) = [v] →
      find_vpc vpcs cluster = .ok (some v.vpc_id)) ∧
    (2 ≤ (vpcs.filter fun vpc =>
        matches_tag_filters vpc.tags (resource_name cluster "vpc") cluster).length →
      ∃ e, find_vpc vpcs cluster = .error e) ∧
    ((subnets.filter fun subnet =>
        matches_tag_filters subnet.tags (resource_name cluster "subnet") cluster) = [] →
      find_subnet subnets cluster = .ok none) ∧
    (∀ v, (subnets.filter fun subnet =>
        matches_tag_filters subnet.tags (resource_name cluster "subnet") cluster) = [v] →
      find_subnet subnets cluster = .ok (some v.subnet_id)) ∧
    (2 ≤ (subnets.filter fun subnet =>
        matches_tag_filters subnet.tags (resource_name cluster "subnet") cluster).length →
      ∃ e, find_subnet subnets cluster = .error e) ∧
    ((igws.filter fun igw =>
        matches_tag_filters igw.tags (resource_name cluster "igw") cluster) = [] →
      find_internet_gateway igws cluster = .ok none) ∧
    (∀ v, (igws.filter fun igw =>
        matches_tag_filters igw.tags (resource_name cluster "igw") cluster) = [v] →
      find_internet_gateway igws cluster = .ok (some v)) ∧
    (2 ≤ (igws.filter fun igw =>
        matches_tag_filters igw.tags (resource_name cluster "igw") cluster).length →
      ∃ e, find_internet_gateway igws cluster = .error e) ∧
    ((tables.filter fun table =>
        matches_tag_filters table.tags (resource_name cluster "rt") cluster) = [] →
      find_route_table tables cluster = .ok none) ∧
    (∀ v, (tables.filter fun table =>
        matches_tag_filters table.tags (resource_name cluster "rt") cluster) = [v] →
      find_route_table tables cluster = .ok (some v)) ∧
    (2 ≤ (tables.filter fun table =>
        matches_tag_filters table.tags (resource_name cluster "rt") cluster).length →
      ∃ e, find_route_table tables cluster = .error e) ∧
    ((groups.filter fun sg =>
        matches_tag_filters sg.tags (resource_name cluster "sg") cluster) = [] →
      find_security_group groups cluster = .ok none) ∧
    (∀ v, (groups.filter fun sg =>
        matches_tag_filters sg.tags (resource_name cluster "sg") cluster) = [v] →
      find_security_group groups cluster = .ok (some v.group_id)) ∧
    (2 ≤ (groups.filter fun sg =>
        matches_tag_filters sg.tags (resource_name cluster "sg") cluster).length →
      ∃ e, find_security_group groups cluster = .error e) ∧
    (∀ i, instances_by_name instances name = [i] →
      find_instance_by_name instances name = .ok i) ∧
    (2 ≤ (instances_by_name instances name).length →
      ∃ e, find_instance_by_name instances name = .error e) := by
  refine ⟨fun h => ?_, fun v h => ?_, fun h => ?_,
    fun h => ?_, fun v h => ?_, fun h => ?_,
    fun h => ?_, fun v h => ?_, fun h => ?_,
    fun h => ?_, fun v h => ?_, fun h => ?_,
    fun h => ?_, fun v h => ?_, fun h => ?_,
    fun i h => ?_, fun h => ?_⟩
  · rw [find_vpc_eq, h]
  · rw [find_vpc_eq, h]
  · rw [find_vpc_eq]
    cases hf : vpcs.filter fun vpc =>
        matches_tag_filters vpc.tags (resource_name cluster "vpc") cluster with
    | nil => rw [hf] at h; simp at h
    | cons a t =>
      cases t with
      | nil => rw [hf] at h; simp at h
      | cons b t₂ => exact ⟨_, rfl⟩
  · rw [find_subnet_eq, h]
  · rw [find_subnet_eq, h]
  · rw [find_subnet_eq]
    cases hf : subnets.filter fun subnet =>
        matches_tag_filters subnet.tags (resource_name cluster "subnet") cluster with
    | nil => rw [hf] at h; simp at h
    | cons a t =>
      cases t with
      | nil => rw [hf] at h; simp at h
      | cons b t₂ => exact ⟨_, rfl⟩
  · rw [find_internet_gateway_eq, h]
  · rw [find_internet_gateway_eq, h]
  · rw [find_internet_gateway_eq]
    cases hf : igws.filter fun igw =>
        matches_tag_filters igw.tags (resource_name cluster "igw") cluster with
    | nil => rw [hf] at h; simp at h
    | cons a t =>
      cases t with
      | nil => rw [hf] at h; simp at h
      | cons b t₂ => exact ⟨_, rfl⟩
  · rw [find_route_table_eq, h]
  · rw [find_route_table_eq, h]
  · rw [find_route_table_eq]
    cases hf : tables.filter fun table =>
        matches_tag_filters table.tags (resource_name cluster "rt") cluster with
    | nil => rw [hf] at h; simp at h
    | cons a t =>
      cases t with
      | nil => rw [hf] at h; simp at h
      | cons b t₂ => exact ⟨_, rfl⟩
  · rw [find_security_group_eq, h]
  · rw [find_security_group_eq, h]
  · rw [find_security_group_eq]
    cases hf : groups.filter fun sg =>
        matches_tag_filters sg.tags (resource_name cluster "sg") cluster with
    | nil => rw [hf] at h; simp at h
    | cons a t =>
      cases t with
      | nil => rw [hf] at h; simp at h
      | cons b t₂ => exact ⟨_, rfl⟩
  · rw [find_instance_by_name_eq, h]
  · rw [find_instance_by_name_eq]
    cases hf : instances_by_name instances name with
    | nil => exact ⟨_, rfl⟩
    | cons a t =>
      cases t with
      | nil => rw [hf] at h; simp at h
      | cons b t₂ => exact ⟨_, rfl⟩

/-- C3: each ensure operation (network, subnet, internet gateway, route
table, security group) called twice in sequence with no intervening
external mutation returns the same resource id both times, the second call
finding the resource the first created or found and creating no
duplicate. -/
theorem ensure_idempotent_contract :
    (∀ (s s₁ : AwsState) (cluster res_id : String),
      ensure_vpc s cluster = .ok (res_id, s₁) →
      ensure_vpc s₁ cluster = .ok (res_id, s₁)) ∧
    (∀ (s s₁ : AwsState) (cluster vpc₀ res_id : String),
      ensure_subnet s cluster vpc₀ = .ok (res_id, s₁) →
      ∃ s₂, ensure_subnet s₁ cluster vpc₀ = .ok (res_id, s₂) ∧
        s₂.subnets.length = s₁.subnets.length) ∧
    (∀ (s s₁ : AwsState) (cluster vpc₀ res_id : String),
      ensure_internet_gateway s cluster vpc₀ = .ok (res_id, s₁) →
      ∃ s₂, ensure_internet_gateway s₁ cluster vpc₀ = .ok (res_id, s₂) ∧
        s₂.igws.length = s₁.igws.length) ∧
    (∀ (s s₁ : AwsState) (cluster vpc₀ subnet₀ igw₀ res_id : String),
      ensure_route_table s cluster vpc₀ subnet₀ igw₀ = .ok (res_id, s₁) →
      ∃ s₂, ensure_route_table s₁ cluster vpc₀ subnet₀ igw₀ = .ok (res_id, s₂) ∧
        s₂.route_tables.length = s₁.route_tables.length) ∧
    (∀ (s s₁ : AwsState) (cluster vpc₀ res_id : String),
      ensure_security_group s cluster vpc₀ = .ok (res_id, s₁) →
      ∃ s₂, ensure_security_group s₁ cluster vpc₀ = .ok (res_id, s₂) ∧
        s₂.security_groups.length = s₁.security_groups.length) :=
  ⟨fun _ _ _ _ h => ensure_vpc_idempotent h,
   fun _ _ _ _ _ h => ensure_subnet_idempotent h,
   fun _ _ _ _ _ h => ensure_internet_gateway_idempotent h,
   fun _ _ _ _ _ _ _ h => ensure_route_table_idempotent h,
   fun _ _ _ _ _ h => ensure_security_group_idempotent h⟩

/-- Witness for C3: each ensure run twice from the empty provider state. -/
theorem ensure_idempotent_contract_witness :
    ensure_vpc
      ⟨[⟨"vpc-0", some [⟨"Name", "demo-vpc"⟩, ⟨"Cluster", "demo"⟩]⟩],
        [], [], [], [], [], [], 1⟩ "demo" =
      .ok ("vpc-0",
        ⟨[⟨"vpc-0", some [⟨"Name", "demo-vpc"⟩, ⟨"Cluster", "demo"⟩]⟩],
          [], [], [], [], [], [], 1⟩) ∧
    (∃ s₂, ensure_subnet
      ⟨[], [⟨"subnet-0", "vpc-0",
          some [⟨"Name", "demo-subnet"⟩, ⟨"Cluster", "demo"⟩], true⟩],
        [], [], [], [], [], 1⟩ "demo" "vpc-0" =
        .ok ("subnet-0", s₂) ∧
      s₂.subnets.length = 1) ∧
    (∃ s₂, ensure_internet_gateway
      ⟨[], [], [⟨"igw-0",
          some [⟨"Name", "demo-igw"⟩, ⟨"Cluster", "demo"⟩],
          some [⟨some "vpc-0"⟩]⟩],
        [], [], [], [], 1⟩ "demo" "vpc-0" =
        .ok ("igw-0", s₂) ∧
      s₂.igws.length = 1) ∧
    (∃ s₂, ensure_route_table
      ⟨[], [], [], [⟨"rtb-0",
          some [⟨"Name", "demo-rt"⟩, ⟨"Cluster", "demo"⟩],
          [("0.0.0.0/0", "igw-0")],
          [⟨some "rtbassoc-1", some "subnet-0", some false⟩]⟩],
        [], [], [], 2⟩ "demo" "vpc-0" "subnet-0" "igw-0" =
        .ok ("rtb-0", s₂) ∧
      s₂.route_tables.length = 1) ∧
    (∃ s₂, ensure_security_group
      ⟨[], [], [], [], [⟨"sg-0",
          some [⟨"Name", "demo-sg"⟩, ⟨"Cluster", "demo"⟩],
          [22, 80, 443, 9090, 9091, 9092]⟩],
        [], [], 1⟩ "demo" "vpc-0" =
        .ok ("sg-0", s₂) ∧
      s₂.security_groups.length = 1) :=
  ⟨ensure_idempotent_contract.1 ⟨[], [], [], [], [], [], [], 0⟩ _
      "demo" "vpc-0" (by rfl),
   ensure_idempotent_contract.2.1 ⟨[], [], [], [], [], [], [], 0⟩ _
      "demo" "vpc-0" "subnet-0" (by rfl),
   ensure_idempotent_contract.2.2.1 ⟨[], [], [], [], [], [], [], 0⟩ _
      "demo" "vpc-0" "igw-0" (by rfl),
   ensure_idempotent_contract.2.2.2.1 ⟨[], [], [], [], [], [], [], 0⟩ _
      "demo" "vpc-0" "subnet-0" "igw-0" "rtb-0" (by rfl),
   ensure_idempotent_contract.2.2.2.2 ⟨[], [], [], [], [], [], [], 0⟩ _
      "demo" "vpc-0" "sg-0" (by rfl)⟩

/-- Witness for C4: an empty fixture, a synthetic two-resource fixture for
each of the five tagged kinds, and a two-instance fixture. -/
theorem locator_ambiguity_contract_witness :
    find_vpc [] "demo" = .ok none ∧
    (∃ e, find_vpc
      [⟨"vpc-1", some [⟨"Name", "demo-vpc"⟩, ⟨"Cluster", "demo"⟩]⟩,
       ⟨"vpc-2", some [⟨"Name", "demo-vpc"⟩, ⟨"Cluster", "demo"⟩]⟩] "demo" =
        .error e) ∧
    (∃ e, find_subnet
      [⟨"subnet-1", "vpc-1", some [⟨"Name", "demo-subnet"⟩, ⟨"Cluster", "demo"⟩], false⟩,
       ⟨"subnet-2", "vpc-1", some [⟨"Name", "demo-subnet"⟩, ⟨"Cluster", "demo"⟩], false⟩]
      "demo" = .error e) ∧
    (∃ e, find_internet_gateway
      [⟨"igw-1", some [⟨"Name", "demo-igw"⟩, ⟨"Cluster", "demo"⟩], none⟩,
       ⟨"igw-2", some [⟨"Name", "demo-igw"⟩, ⟨"Cluster", "demo"⟩], none⟩] "demo" =
        .error e) ∧
    (∃ e, find_route_table
      [⟨"rtb-1", some [⟨"Name", "demo-rt"⟩, ⟨"Cluster", "demo"⟩], [], []⟩,
       ⟨"rtb-2", some [⟨"Name", "demo-rt"⟩, ⟨"Cluster", "demo"⟩], [], []⟩] "demo" =
        .error e) ∧
    (∃ e, find_security_group
      [⟨"sg-1", some [⟨"Name", "demo-sg"⟩, ⟨"Cluster", "demo"⟩], []⟩,
       ⟨"sg-2", some [⟨"Name", "demo-sg"⟩, ⟨"Cluster", "demo"⟩], []⟩] "demo" =
        .error e) ∧
    (∃ e, find_instance_by_name
      [⟨"i-1", "running", none, none, none, some [⟨"Name", "web"⟩]⟩,
       ⟨"i-2", "stopped", none, none, none, some [⟨"Name", "web"⟩]⟩] "web" =
        .error e) :=
  ⟨(locator_ambiguity_contract [] [] [] [] [] "demo" [] "web").1 rfl,
   (locator_ambiguity_contract
      [⟨"vpc-1", some [⟨"Name", "demo-vpc"⟩, ⟨"Cluster", "demo"⟩]⟩,
       ⟨"vpc-2", some [⟨"Name", "demo-vpc"⟩, ⟨"Cluster", "demo"⟩]⟩]
      [] [] [] [] "demo" [] "web").2.2.1 (by decide),
   (locator_ambiguity_contract []
      [⟨"subnet-1", "vpc-1", some [⟨"Name", "demo-subnet"⟩, ⟨"Cluster", "demo"⟩], false⟩,
       ⟨"subnet-2", "vpc-1", some [⟨"Name", "demo-subnet"⟩, ⟨"Cluster", "demo"⟩], false⟩]
      [] [] [] "demo" [] "web").2.2.2.2.2.1 (by decide),
   (locator_ambiguity_contract [] []
      [⟨"igw-1", some [⟨"Name", "demo-igw"⟩, ⟨"Cluster", "demo"⟩], none⟩,
       ⟨"igw-2", some [⟨"Name", "demo-igw"⟩, ⟨"Cluster", "demo"⟩], none⟩]
      [] [] "demo" [] "web").2.2.2.2.2.2.2.2.1 (by decide),
   (locator_ambiguity_contract [] [] []
      [⟨"rtb-1", some [⟨"Name", "demo-rt"⟩, ⟨"Cluster", "demo"⟩], [], []⟩,
       ⟨"rtb-2", some [⟨"Name", "demo-rt"⟩, ⟨"Cluster", "demo"⟩], [], []⟩]
      [] "demo" [] "web").2.2.2.2.2.2.2.2.2.2.2.1 (by decide),
   (locator_ambiguity_contract [] [] [] []
      [⟨"sg-1", some [⟨"Name", "demo-sg"⟩, ⟨"Cluster", "demo"⟩], []⟩,
       ⟨"sg-2", some [⟨"Name", "demo-sg"⟩, ⟨"Cluster", "demo"⟩], []⟩]
      "demo" [] "web").2.2.2.2.2.2.2.2.2.2.2.2.2.2.1 (by decide),
   (locator_ambiguity_contract [] [] [] [] [] "demo"
      [⟨"i-1", "running", none, none, none, some [⟨"Name", "web"⟩]⟩,
       ⟨"i-2", "stopped", none, none, none, some [⟨"Name", "web"⟩]⟩]
      "web").2.2.2.2.2.2.2.2.2.2.2.2.2.2.2.2 (by decide)⟩

/-- C8: default-route convergence attempts the create first and succeeds
if it succeeds; on the already-exists signal it falls back to replace and
succeeds exactly when the replace succeeds; any other create failure is
fatal; and a second convergence against the same destination never errors. -/
theorem ensure_default_route_contract (createOut replaceOut : CmdOutput)
    (s s₁ : AwsState) (rtb igw : String) :
    (createOut.success = true →
      ensure_default_route_outcome createOut replaceOut = .ok ()) ∧
    (createOut.success = false →
      (strContains createOut.stderr "RouteAlreadyExists" ||
        strContains createOut.stderr "InvalidRoute.Duplicate") = true →
      (ensure_default_route_outcome createOut replaceOut = .ok () ↔
        replaceOut.success = true)) ∧
    (createOut.success = false →
      (strContains createOut.stderr "RouteAlreadyExists" ||
        strContains createOut.stderr "InvalidRoute.Duplicate") = false →
      ensure_default_route_outcome createOut replaceOut =
        .error ("failed to create route: " ++ strTrim createOut.stderr)) ∧
    (ensure_default_route s rtb igw = .ok s₁ →
      ∃ s₂, ensure_default_route s₁ rtb igw = .ok s₂) := by
  refine ⟨fun h => ?_, fun h hsig => ?_, fun h hsig => ?_, fun h => ?_⟩
  · simp [ensure_default_route_outcome, h]
  · cases hr : replaceOut.success <;>
      simp [ensure_default_route_outcome, h, hsig, hr]
  · simp [ensure_default_route_outcome, h, hsig]
  · obtain ⟨t₁, hfind₁, hany₁⟩ := ensure_default_route_ok_post h
    have hc₃ : strContains "An error occurred (RouteAlreadyExists)"
        "RouteAlreadyExists" = true := by decide
    unfold ensure_default_route create_route replace_route
    simp [hfind₁, hany₁, hc₃]

/-- Witness for C8: convergence twice in a row on a one-table state, plus
the three response-driven cases at concrete outputs. -/
theorem ensure_default_route_contract_witness :
    ensure_default_route_outcome ⟨true, ""⟩ ⟨false, "x"⟩ = .ok () ∧
    (ensure_default_route_outcome ⟨false, "An error occurred (RouteAlreadyExists)"⟩
        ⟨true, ""⟩ = .ok () ↔ true = true) ∧
    ensure_default_route_outcome ⟨false, "boom"⟩ ⟨true, ""⟩ =
      .error ("failed to create route: " ++ strTrim "boom") ∧
    (∃ s₂, ensure_default_route
      { vpcs := [], subnets := [], igws := [],
        route_tables := [⟨"rtb-1", none, [("0.0.0.0/0", "igw-1")], []⟩],
        security_groups := [], instances := [], key_pairs := [], next_id := 0 }
      "rtb-1" "igw-1" = .ok s₂) := by
  refine ⟨?_, ?_, ?_, ?_⟩
  · exact (ensure_default_route_contract ⟨true, ""⟩ ⟨false, "x"⟩
      ⟨[], [], [], [], [], [], [], 0⟩ ⟨[], [], [], [], [], [], [], 0⟩
      "rtb-1" "igw-1").1 rfl
  · exact (ensure_default_route_contract
      ⟨false, "An error occurred (RouteAlreadyExists)"⟩ ⟨true, ""⟩
      ⟨[], [], [], [], [], [], [], 0⟩ ⟨[], [], [], [], [], [], [], 0⟩
      "rtb-1" "igw-1").2.1 rfl (by decide)
  · exact (ensure_default_route_contract ⟨false, "boom"⟩ ⟨true, ""⟩
      ⟨[], [], [], [], [], [], [], 0⟩ ⟨[], [], [], [], [], [], [], 0⟩
      "rtb-1" "igw-1").2.2.1 rfl (by decide)
  · exact (ensure_default_route_contract ⟨true, ""⟩ ⟨true, ""⟩
      { vpcs := [], subnets := [], igws := [],
        route_tables := [⟨"rtb-1", none, [("0.0.0.0/0", "igw-1")], []⟩],
        security_groups := [], instances := [], key_pairs := [], next_id := 0 }
      { vpcs := [], subnets := [], igws := [],
        route_tables := [⟨"rtb-1", none, [("0.0.0.0/0", "igw-1")], []⟩],
        security_groups := [], instances := [], key_pairs := [], next_id := 0 }
      "rtb-1" "igw-1").2.2.2 (by rfl)

/-- C9: when the cluster's VPC still contains a non-terminated instance,
prune fails with a fatal error having performed no deletion and no
confirmation prompt: the returned state is the input state and the action
log is empty. -/
theorem prune_refuses_with_live_instances (s : AwsState)
    (cluster vpc_id : String) (force confirm_prune confirm_key : Bool)
    (hvpc : find_vpc s.vpcs cluster = .ok (some vpc_id))
    (hlive : describe_instances_by_vpc s.instances vpc_id ≠ []) :
    ∃ msg, run_aws_prune s cluster force confirm_prune confirm_key =
      (.error msg, s, []) := by
  have hie : (describe_instances_by_vpc s.instances vpc_id).isEmpty = false := by
    cases h : (describe_instances_by_vpc s.instances vpc_id).isEmpty
    · rfl
    · exact absurd (List.isEmpty_iff.mp h) hlive
  unfold run_aws_prune
  rw [hvpc]
  simp [hie]

/-- Witness for C9: a one-VPC state with one running instance inside it. -/
theorem prune_refuses_with_live_instances_witness :
    ∃ msg, run_aws_prune
      { vpcs := [⟨"vpc-1", some [⟨"Name", "demo-vpc"⟩, ⟨"Cluster", "demo"⟩]⟩],
        subnets := [], igws := [], route_tables := [], security_groups := [],
        instances := [⟨"i-1", "running", some "vpc-1", none, none,
          some [⟨"Name", "web"⟩]⟩],
        key_pairs := [], next_id := 5 }
      "demo" false true true =
      (.error msg,
       { vpcs := [⟨"vpc-1", some [⟨"Name", "demo-vpc"⟩, ⟨"Cluster", "demo"⟩]⟩],
         subnets := [], igws := [], route_tables := [], security_groups := [],
         instances := [⟨"i-1", "running", some "vpc-1", none, none,
           some [⟨"Name", "web"⟩]⟩],
         key_pairs := [], next_id := 5 }, []) :=
  prune_refuses_with_live_instances _ "demo" "vpc-1" false true true
    (by rfl) (by decide)

/-- C10: the cloud-identifier sanitizer always returns a non-empty string
that starts with an ASCII letter, contains only lowercase ASCII
alphanumerics and hyphens, has no two consecutive hyphens and does not end
with a hyphen; it is the function behind the GCE cluster label and the
droplet cluster tag; and it is not injective. -/
theorem sanitize_cloud_identifier_contract (input : String) :
    (sanitize_cloud_identifier input).data ≠ [] ∧
    ((sanitize_cloud_identifier input).data.head?.map isAsciiAlphabetic).getD
      false = true ∧
    (∀ c ∈ (sanitize_cloud_identifier input).data,
      (isAsciiLowerAlpha c || isAsciiDigit c || c == '-') = true) ∧
    List.Chain' (fun a b => (a == '-' && b == '-') = false)
      (sanitize_cloud_identifier input).data ∧
    ((sanitize_cloud_identifier input).data.getLast?.map fun c =>
      c == '-').getD false = false ∧
    gce_cluster_label_value input = sanitize_cloud_identifier input ∧
    droplet_cluster_tag input = "cluster-" ++ sanitize_cloud_identifier input ∧
    (∃ a b : String, (a == b) = false ∧
      sanitize_cloud_identifier a = sanitize_cloud_identifier b) := by
  obtain ⟨hall₀, hch₀⟩ := sanitize_build_invariant input.data []
    (by simp) (by simp)
  have hsuf₁ : ((sanitize_build [] input.data).dropWhile fun c => c = '-') <:+
      sanitize_build [] input.data := List.dropWhile_suffix _
  have hall₁ : ∀ c ∈ (sanitize_build [] input.data).dropWhile fun c => c = '-',
      (isAsciiLowerAlpha c || isAsciiDigit c || c == '-') = true :=
    fun c hc => hall₀ c (hsuf₁.sublist.subset hc)
  have hch₁ := hch₀.suffix hsuf₁
  have hsuf₂ : ((((sanitize_build [] input.data).dropWhile fun c =>
        c = '-').reverse.dropWhile fun c => c = '-')) <:+
      ((sanitize_build [] input.data).dropWhile fun c => c = '-').reverse :=
    List.dropWhile_suffix _
  have hpre₂ : ((((sanitize_build [] input.data).dropWhile fun c =>
        c = '-').reverse.dropWhile fun c => c = '-')).reverse <+:
      ((sanitize_build [] input.data).dropWhile fun c => c = '-') := by
    have hr := List.reverse_prefix.mpr hsuf₂
    rwa [List.reverse_reverse] at hr
  have hall₂ : ∀ c ∈ ((((sanitize_build [] input.data).dropWhile fun c =>
        c = '-').reverse.dropWhile fun c => c = '-')).reverse,
      (isAsciiLowerAlpha c || isAsciiDigit c || c == '-') = true :=
    fun c hc => hall₁ c (hpre₂.sublist.subset hc)
  have hch₂ := hch₁.prefix hpre₂
  have hlast₂ : ∀ c, ((((sanitize_build [] input.data).dropWhile fun c =>
        c = '-').reverse.dropWhile fun c => c = '-')).reverse.getLast? =
        some c → (c == '-') = false := by
    intro c hc
    rw [List.getLast?_reverse] at hc
    have hnp := List.head?_dropWhile_not (fun c : Char => decide (c = '-'))
      ((sanitize_build [] input.data).dropWhile fun c => c = '-').reverse
    rw [hc] at hnp
    simp only [Option.mem_some_iff, forall_eq, decide_eq_false_iff_not] at hnp
    simp only [beq_eq_false_iff_ne, ne_eq]
    intro hce
    exact absurd hce hnp
  have hshape : (sanitize_cloud_identifier input).data ≠ [] ∧
      ((sanitize_cloud_identifier input).data.head?.map isAsciiAlphabetic).getD
        false = true ∧
      (∀ c ∈ (sanitize_cloud_identifier input).data,
        (isAsciiLowerAlpha c || isAsciiDigit c || c == '-') = true) ∧
      List.Chain' (fun a b => (a == '-' && b == '-') = false)
        (sanitize_cloud_identifier input).data ∧
      ((sanitize_cloud_identifier input).data.getLast?.map fun c =>
        c == '-').getD false = false := by
    unfold sanitize_cloud_identifier
    dsimp only
    by_cases hemp : ((((sanitize_build [] input.data).dropWhile fun c =>
        c = '-').reverse.dropWhile fun c => c = '-')).reverse = []
    · rw [if_pos hemp]
      rw [if_pos (show (("cluster".data.head?.map isAsciiAlphabetic).getD false) =
        true from by decide)]
      exact ⟨by decide, by decide, by decide, by simp [List.chain'_cons],
        by decide⟩
    · rw [if_neg hemp]
      by_cases halpha : ((((((sanitize_build [] input.data).dropWhile fun c =>
          c = '-').reverse.dropWhile fun c => c = '-')).reverse.head?.map
            isAsciiAlphabetic).getD false) = true
      · rw [if_pos halpha]
        refine ⟨hemp, halpha, hall₂, hch₂, ?_⟩
        cases hgl : ((((sanitize_build [] input.data).dropWhile fun c =>
            c = '-').reverse.dropWhile fun c => c = '-')).reverse.getLast? with
        | none => simp
        | some c =>
          simp only [Option.map_some', Option.getD_some]
          exact hlast₂ c hgl
      · rw [if_neg halpha]
        refine ⟨by simp, by simp [isAsciiAlphabetic, isAsciiUpper,
            isAsciiLowerAlpha], ?_, ?_, ?_⟩
        · intro c hc
          rcases List.mem_cons.mp hc with rfl | hc
          · decide
          · exact hall₂ c hc
        · apply List.Chain'.cons' hch₂
          intro y hy
          simp
        · rw [getLast?_cons_ne hemp]
          cases hgl : ((((sanitize_build [] input.data).dropWhile fun c =>
              c = '-').reverse.dropWhile fun c => c = '-')).reverse.getLast? with
          | none => simp
          | some c =>
            simp only [Option.map_some', Option.getD_some]
            exact hlast₂ c hgl
  exact ⟨hshape.1, hshape.2.1, hshape.2.2.1, hshape.2.2.2.1, hshape.2.2.2.2,
    rfl, rfl, ⟨"a", "A", by decide, by decide⟩⟩

/-- Witness for C10 at a concrete messy cluster name. -/
theorem sanitize_cloud_identifier_contract_witness :
    sanitize_cloud_identifier "--Web Cluster 42--" = "web-cluster-42" ∧
    (sanitize_cloud_identifier "--Web Cluster 42--").data ≠ [] :=
  ⟨by decide, (sanitize_cloud_identifier_contract "--Web Cluster 42--").1⟩

/-- Witness for C5 at a concrete failing sub-status pair. -/
theorem ec2_status_checks_tri_state_witness :
    (ec2_status_checks_of_entry
      (some ⟨"i-1", some ⟨some "impaired"⟩, some ⟨some "ok"⟩⟩)
      "running").checks_pass = some false :=
  (ec2_status_checks_tri_state "i-1" "running" (some ⟨some "impaired"⟩)
    (some ⟨some "ok"⟩)).2.2 (by decide) (by decide)

/-- Witness for C6 at concrete flag combinations. -/
theorem eic_skip_reason_precedence_witness :
    eic_send_key_skip_reason false true true true = some "instance-not-running" ∧
    eic_send_key_skip_reason true true false true =
      some "availability-zone-missing" ∧
    (eic_send_key_skip_reason true true true true = none ↔
      true = true ∧ true = true ∧ true = true ∧ true = true) ∧
    run_eic_probe true false true true SgPort22Status.Unknown "ubuntu"
        (.success (some true)) =
      .ok ⟨"ubuntu", false, true, true, SgPort22Status.Unknown, .Skipped,
        some "no-public-ip"⟩ :=
  ⟨(eic_skip_reason_precedence false true true true).1 rfl,
   (eic_skip_reason_precedence true true false true).2.2.1 rfl rfl rfl,
   (eic_skip_reason_precedence true true true true).2.2.2.2.1,
   (eic_skip_reason_precedence true false true true).2.2.2.2.2
     SgPort22Status.Unknown "ubuntu" (.success (some true)) "no-public-ip" rfl⟩

/-- Witness for C7 at a concrete access-denied message and a concrete
other failure. -/
theorem run_eic_probe_access_denied_witness :
    run_eic_probe true true true true SgPort22Status.OpenWorld "ubuntu"
        (.failure "UnauthorizedOperation: not allowed") =
      .error ("ec2-instance-connect send-ssh-public-key failed: " ++
        "UnauthorizedOperation: not allowed") ∧
    run_eic_probe true true true true SgPort22Status.OpenWorld "ubuntu"
        (.failure "instance unreachable") =
      .ok ⟨"ubuntu", true, true, true, SgPort22Status.OpenWorld, .Failed,
        some "instance unreachable"⟩ :=
  ⟨(run_eic_probe_access_denied SgPort22Status.OpenWorld "ubuntu"
      "UnauthorizedOperation: not allowed").1 (by decide),
   (run_eic_probe_access_denied SgPort22Status.OpenWorld "ubuntu"
      "instance unreachable").2.1 (by decide)⟩

end VmCli
